import Mathlib

/-!
# Temporal inventory reservation engine — formal model

Shallow embedding of the reservation core of the pmj backend
(`src/controllers/busController.js` and `src/controllers/hotelController.js`).

Modelling conventions:
* Times and calendar dates are natural numbers (an abstract clock; dates are
  day numbers, room validity is the half-open interval `[checkIn, checkOut)`).
* The database tables `busSeatReservation` and `hotelRoomAllocation` are lists
  of rows; Prisma `findUnique` / `findFirst` become `List.find?`,
  `updateMany` becomes a guarded `List.map`, `create` appends a row.
* Each request handler is a pure function from its (already type-checked)
  inputs and the ledger state to a result and the successor state.  A Prisma
  `$transaction` that throws rolls the state back to the input state; a
  handler error issued after the transaction keeps the committed state.
* `new Date()` is modelled by a single `now : Nat` parameter per request;
  the generated `crypto.randomUUID()` hold token is an explicit parameter.
-/

namespace PMJ

/-- Reservation status enumeration shared by `busSeatReservation.status` and
`hotelRoomAllocation.status`. -/
inductive RStatus where
  | HELD
  | BOOKED
  | RELEASED
  | EXPIRED
deriving DecidableEq

/-- One `busSeat` catalog row (static, read-only to the engine). -/
structure BusSeat where
  id : String
  busId : String
  seatNumber : String
deriving DecidableEq

/-- One `busSeatReservation` ledger row. -/
structure SeatRes where
  busId : String
  busSeatId : String
  tripId : String
  journeyDate : Nat
  seatNumber : String
  status : RStatus
  holdToken : Option String
  holdExpiresAt : Option Nat
  userId : String
  paymentId : Option String
  bookingId : Option String
deriving DecidableEq

/-- `SEAT_HOLD_DURATION_SECONDS` default. -/
def HOLD_DURATION_SECONDS : Nat := 300

/-- JS truthiness guard `o && o < t` on a nullable timestamp. -/
def expiryLt (o : Option Nat) (t : Nat) : Bool :=
  match o with
  | some e => decide (e < t)
  | none => false

/-- JS truthiness guard `o && o <= t` on a nullable timestamp. -/
def expiryLe (o : Option Nat) (t : Nat) : Bool :=
  match o with
  | some e => decide (e ≤ t)
  | none => false

/-- JS truthiness guard `o && o > t` on a nullable timestamp. -/
def expiryGt (o : Option Nat) (t : Nat) : Bool :=
  match o with
  | some e => decide (t < e)
  | none => false

/-- The `where` filter of `expireStaleSeatHolds`: a `HELD` row of the given
bus and journey date whose `holdExpiresAt` is strictly before `now`. -/
def seatReapMatch (busId : String) (journeyDate now : Nat) (r : SeatRes) : Bool :=
  r.busId == busId && r.journeyDate == journeyDate && r.status == RStatus.HELD &&
    expiryLt r.holdExpiresAt now

/-- `expireStaleSeatHolds`: bulk-update matching rows to `EXPIRED`, clearing
`holdToken`, `holdExpiresAt` and `paymentId` (bookingId is left alone). -/
def expireStaleSeatHolds (busId : String) (journeyDate now : Nat)
    (rows : List SeatRes) : List SeatRes :=
  rows.map fun r =>
    if seatReapMatch busId journeyDate now r then
      { r with
          status := RStatus.EXPIRED
          holdToken := none
          holdExpiresAt := none
          paymentId := none }
    else r

/-- The composite unique key `busId_journeyDate_seatNumber`. -/
def seatKeyMatch (busId : String) (journeyDate : Nat) (seatNumber : String)
    (r : SeatRes) : Bool :=
  r.busId == busId && r.journeyDate == journeyDate && r.seatNumber == seatNumber

/-- Prisma `busSeatReservation.findUnique` on the composite key. -/
def seatFindUnique (busId : String) (journeyDate : Nat) (seatNumber : String)
    (rows : List SeatRes) : Option SeatRes :=
  rows.find? (seatKeyMatch busId journeyDate seatNumber)

/-- Prisma `busSeatReservation.update` on the composite key. -/
def seatUpdateByKey (busId : String) (journeyDate : Nat) (seatNumber : String)
    (f : SeatRes → SeatRes) (rows : List SeatRes) : List SeatRes :=
  rows.map fun r => if seatKeyMatch busId journeyDate seatNumber r then f r else r

/-- One entry of the `rejectedSeats` response list. -/
structure SeatRejection where
  seatNumber : String
  reason : String
deriving DecidableEq

/-- Result of the `holdSeats` endpoint. -/
inductive HoldSeatsResult where
  | ok (holdToken : String) (expiresAt : Nat) (heldSeats : List String)
      (rejectedSeats : List SeatRejection)
  | err (statusCode : Nat) (message : String) (rejectedSeats : List SeatRejection)
deriving DecidableEq

/-- JS `[...new Set(xs)]`: deduplicate keeping first occurrences in order. -/
def dedupKeepFirst (l : List String) : List String :=
  l.foldl (fun acc x => if acc.contains x then acc else acc ++ [x]) []

/-- The body of the per-seat loop inside the `holdSeats` transaction.
State is `(rows, heldSeats, rejectedSeats)`. -/
def holdSeatStep (seats : List BusSeat) (busId tripId : String) (journeyDate : Nat)
    (uid token : String) (now expiresAt : Nat)
    (st : List SeatRes × List String × List SeatRejection) (seatNumber : String) :
    List SeatRes × List String × List SeatRejection :=
  let rows := st.1
  let held := st.2.1
  let rejected := st.2.2
  match seatFindUnique busId journeyDate seatNumber rows with
  | none =>
      let busSeatId := ((seats.find? fun s => s.seatNumber == seatNumber).map
        (fun s => s.id)).getD ""
      (rows ++ [{ busId := busId
                  busSeatId := busSeatId
                  tripId := tripId
                  journeyDate := journeyDate
                  seatNumber := seatNumber
                  status := RStatus.HELD
                  holdToken := some token
                  holdExpiresAt := some expiresAt
                  userId := uid
                  paymentId := none
                  bookingId := none }],
       held ++ [seatNumber], rejected)
  | some r =>
      if r.status = RStatus.BOOKED then
        (rows, held, rejected ++ [⟨seatNumber, "Seat already booked"⟩])
      else if r.status = RStatus.HELD then
        let isExpired : Bool := expiryLe r.holdExpiresAt now
        let sameUserHold : Bool := r.userId == uid && r.holdToken == some token
        if sameUserHold || isExpired || r.userId == uid then
          (seatUpdateByKey busId journeyDate seatNumber
            (fun r0 => { r0 with
                           tripId := tripId
                           status := RStatus.HELD
                           holdToken := some token
                           holdExpiresAt := some expiresAt
                           userId := uid
                           paymentId := none
                           bookingId := none }) rows,
           held ++ [seatNumber], rejected)
        else
          (rows, held, rejected ++ [⟨seatNumber, "Seat currently held by another traveler"⟩])
      else
        -- For RELEASED / EXPIRED states the hold is re-assigned unconditionally.
        (seatUpdateByKey busId journeyDate seatNumber
          (fun r0 => { r0 with
                         tripId := tripId
                         status := RStatus.HELD
                         holdToken := some token
                         holdExpiresAt := some expiresAt
                         userId := uid
                         paymentId := none
                         bookingId := none }) rows,
         held ++ [seatNumber], rejected)

/-- The `holdSeats` transaction body: reap the scope, then attempt each
sanitized seat independently. -/
def holdSeatsLoop (seats : List BusSeat) (busId tripId : String) (journeyDate : Nat)
    (uid token : String) (now expiresAt : Nat) (sanitized : List String)
    (rows : List SeatRes) : List SeatRes × List String × List SeatRejection :=
  sanitized.foldl (holdSeatStep seats busId tripId journeyDate uid token now expiresAt)
    (expireStaleSeatHolds busId journeyDate now rows, [], [])

/-- `holdSeats` endpoint (`POST /api/buses/:id/hold`).  `seats` is the
`busSeat` catalog; `reqToken` is the caller-supplied `holdToken` and
`freshToken` the engine-generated one used when none is supplied. -/
def holdSeats (seats : List BusSeat) (busId tripId : String) (journeyDate : Nat)
    (seatNumbers : List String) (reqToken : Option String) (freshToken uid : String)
    (now : Nat) (rows : List SeatRes) : HoldSeatsResult × List SeatRes :=
  if seatNumbers.isEmpty then
    (HoldSeatsResult.err 400 "Provide at least one seat number to hold" [], rows)
  else
    let seatsFound := seats.filter fun s =>
      s.busId == busId && seatNumbers.contains s.seatNumber
    if seatsFound.isEmpty then
      (HoldSeatsResult.err 400 "Invalid seat numbers provided" [], rows)
    else
      let sanitized := (dedupKeepFirst seatNumbers).filter fun sn =>
        seatsFound.any fun s => s.seatNumber == sn
      if sanitized.isEmpty then
        (HoldSeatsResult.err 400 "No valid seats to hold" [], rows)
      else
        let expiresAt := now + HOLD_DURATION_SECONDS
        let token := reqToken.getD freshToken
        let res := holdSeatsLoop seatsFound busId tripId journeyDate uid token now
          expiresAt sanitized rows
        if res.2.1.isEmpty then
          (HoldSeatsResult.err 409 "Unable to hold requested seats" res.2.2, res.1)
        else
          (HoldSeatsResult.ok token expiresAt res.2.1 res.2.2, res.1)

/-- Arguments of the `releaseSeats` endpoint. -/
structure ReleaseSeatsArgs where
  busId : String
  holdToken : String
  journeyDate : Option Nat
  /-- `none` models a missing/empty `seatNumbers` array in the request body. -/
  seatNumbers : Option (List String)
  callerId : String
  callerIsAdmin : Bool

/-- The `updateMany` filter assembled by `releaseSeats`. -/
def releaseSeatMatch (a : ReleaseSeatsArgs) (r : SeatRes) : Bool :=
  r.busId == a.busId && r.holdToken == some a.holdToken && r.status == RStatus.HELD &&
    (match a.journeyDate with
     | some jd => r.journeyDate == jd
     | none => true) &&
    (match a.seatNumbers with
     | some sns => sns.contains r.seatNumber
     | none => true) &&
    (a.callerIsAdmin || r.userId == a.callerId)

/-- `releaseSeats` endpoint (`DELETE /api/buses/:id/hold/:holdToken`):
transitions matching `HELD` rows to `RELEASED`, clearing token, expiry,
payment and booking linkage; returns the updated ledger and `releasedCount`. -/
def releaseSeats (a : ReleaseSeatsArgs) (rows : List SeatRes) :
    List SeatRes × Nat :=
  (rows.map fun r =>
     if releaseSeatMatch a r then
       { r with
           status := RStatus.RELEASED
           holdToken := none
           holdExpiresAt := none
           paymentId := none
           bookingId := none }
     else r,
   (rows.filter (releaseSeatMatch a)).length)

/-- One leg of a `confirmSeats` request (`journeyDate` already normalized). -/
structure ConfirmLeg where
  journeyDate : Nat
  seatNumbers : List String
deriving DecidableEq

/-- One entry of the `conflicts` list returned by `confirmSeats`. -/
structure SeatConflict where
  seatNumber : String
  journeyDate : Nat
  reason : String
deriving DecidableEq

/-- One entry of the `confirmedSeats` list returned by `confirmSeats`. -/
structure ConfirmedSeat where
  seatNumber : String
  journeyDate : Nat
deriving DecidableEq

/-- Per-seat body of the `confirmSeats` transaction. -/
def confirmSeatStep (busId holdToken uid : String) (bookingId paymentId : Option String)
    (journeyDate now : Nat)
    (st : List SeatRes × List ConfirmedSeat × List SeatConflict) (seatNumber : String) :
    List SeatRes × List ConfirmedSeat × List SeatConflict :=
  let rows := st.1
  let confirmed := st.2.1
  let conflicts := st.2.2
  match seatFindUnique busId journeyDate seatNumber rows with
  | none =>
      (rows, confirmed, conflicts ++ [⟨seatNumber, journeyDate, "Seat not held"⟩])
  | some r =>
      if r.status = RStatus.BOOKED then
        (rows, confirmed, conflicts ++ [⟨seatNumber, journeyDate, "Seat already booked"⟩])
      else if r.holdToken ≠ some holdToken ∨ r.userId ≠ uid then
        (rows, confirmed, conflicts ++ [⟨seatNumber, journeyDate, "Hold token mismatch"⟩])
      else if expiryLe r.holdExpiresAt now then
        (rows, confirmed, conflicts ++ [⟨seatNumber, journeyDate, "Hold expired"⟩])
      else
        (seatUpdateByKey busId journeyDate seatNumber
          (fun r0 => { r0 with
                         status := RStatus.BOOKED
                         holdToken := none
                         holdExpiresAt := none
                         bookingId := bookingId
                         paymentId := paymentId }) rows,
         confirmed ++ [⟨seatNumber, journeyDate⟩], conflicts)

/-- Per-leg body of the `confirmSeats` transaction: legs with an empty seat
list are skipped before the reap. -/
def confirmSeatLeg (busId holdToken uid : String) (bookingId paymentId : Option String)
    (now : Nat) (st : List SeatRes × List ConfirmedSeat × List SeatConflict)
    (leg : ConfirmLeg) : List SeatRes × List ConfirmedSeat × List SeatConflict :=
  if leg.seatNumbers.isEmpty then st
  else
    let reaped := expireStaleSeatHolds busId leg.journeyDate now st.1
    leg.seatNumbers.foldl
      (confirmSeatStep busId holdToken uid bookingId paymentId leg.journeyDate now)
      (reaped, st.2.1, st.2.2)

/-- Result of the `confirmSeats` endpoint. -/
inductive ConfirmSeatsResult where
  | ok (confirmedSeats : List ConfirmedSeat)
  | err (statusCode : Nat) (message : String) (confirmedSeats : List ConfirmedSeat)
      (conflicts : List SeatConflict)
deriving DecidableEq

/-- `confirmSeats` endpoint (`POST /api/buses/:id/confirm`).  The transaction
commits whatever could be confirmed even when conflicts exist; conflicts are
then surfaced as a 409 error carrying both lists. -/
def confirmSeats (busId holdToken tripId : String) (bookingId paymentId : Option String)
    (legs : List ConfirmLeg) (uid : String) (now : Nat) (rows : List SeatRes) :
    ConfirmSeatsResult × List SeatRes :=
  let _ := tripId
  let res := legs.foldl (confirmSeatLeg busId holdToken uid bookingId paymentId now)
    (rows, [], [])
  if res.2.2.isEmpty then
    (ConfirmSeatsResult.ok res.2.1, res.1)
  else
    (ConfirmSeatsResult.err 409 "Some seats could not be confirmed" res.2.1 res.2.2, res.1)

/-- One `busBooking` row joined with its parent booking status, as read by
`getSeatMap`. -/
structure BusBooking where
  busId : String
  bookingDate : Nat
  seatNumbers : List String
  bookingStatus : Option String
deriving DecidableEq

/-- One seat of the seat-map projection (display-only fields omitted). -/
structure SeatMapEntry where
  seatNumber : String
  status : String
  holdToken : Option String
  userId : Option String
deriving DecidableEq

/-- Seat numbers covered by a `CONFIRMED`/`COMPLETED` booking for the scope. -/
def bookedSeatNumbers (busId : String) (journeyDate : Nat)
    (bookings : List BusBooking) : List String :=
  (bookings.filter fun b =>
      b.busId == busId && b.bookingDate == journeyDate &&
        (match b.bookingStatus with
         | some st => st == "CONFIRMED" || st == "COMPLETED"
         | none => false)).foldl (fun acc b => acc ++ b.seatNumbers) []

/-- The `reservationMap` lookup of `getSeatMap`: `Map.set` overwrites, so the
last matching reservation in the fetched list wins. -/
def reservationMapGet (reservations : List SeatRes) (seatNumber : String) :
    Option SeatRes :=
  reservations.reverse.find? fun r => r.seatNumber == seatNumber

/-- Classification of one seat in `getSeatMap`. -/
def classifySeat (booked : List String) (reservations : List SeatRes) (now : Nat)
    (seat : BusSeat) : SeatMapEntry :=
  if booked.contains seat.seatNumber then
    ⟨seat.seatNumber, "BOOKED", none, none⟩
  else
    match reservationMapGet reservations seat.seatNumber with
    | some r =>
        if r.status = RStatus.BOOKED then
          ⟨seat.seatNumber, "BOOKED", r.holdToken, some r.userId⟩
        else if r.status = RStatus.HELD then
          if expiryGt r.holdExpiresAt now then
            ⟨seat.seatNumber, "HELD", r.holdToken, some r.userId⟩
          else
            ⟨seat.seatNumber, "AVAILABLE", none, none⟩
        else
          ⟨seat.seatNumber, "AVAILABLE", none, none⟩
    | none => ⟨seat.seatNumber, "AVAILABLE", none, none⟩

/-- `getSeatMap` endpoint (`GET /api/buses/:id/seats`): first reaps the scope
inside the transaction, then projects every catalog seat to a status.  Returns
the committed ledger and the normalized seat list. -/
def getSeatMap (seats : List BusSeat) (bookings : List BusBooking)
    (busId : String) (journeyDate now : Nat) (rows : List SeatRes) :
    List SeatRes × List SeatMapEntry :=
  let reaped := expireStaleSeatHolds busId journeyDate now rows
  let seatList := seats.filter fun s => s.busId == busId
  let reservationList := reaped.filter fun r =>
    r.busId == busId && r.journeyDate == journeyDate &&
      (r.status == RStatus.HELD || r.status == RStatus.BOOKED)
  let booked := bookedSeatNumbers busId journeyDate bookings
  (reaped, seatList.map (classifySeat booked reservationList now))

/-! ## Room Reservation Manager (`hotelController.js`) -/

/-- `ROOM_HOLD_DURATION_SECONDS` default. -/
def ROOM_HOLD_DURATION_SECONDS : Nat := 300

/-- One `hotelRoom` catalog row (display attributes omitted). -/
structure HotelRoom where
  id : String
  hotelId : String
  roomNumber : String
deriving DecidableEq

/-- One `hotelRoomAllocation` ledger row.  `id` is the database row id used
by Prisma `update({ where: { id } })`. -/
structure RoomAlloc where
  id : Nat
  hotelId : String
  hotelRoomId : String
  tripId : String
  roomNumber : String
  checkIn : Nat
  checkOut : Nat
  status : RStatus
  holdToken : Option String
  holdExpiresAt : Option Nat
  userId : String
  paymentId : Option String
  bookingId : Option String
deriving DecidableEq

/-- The `hotelRoomAllocation` table plus the id sequence for inserts. -/
structure HotelState where
  allocs : List RoomAlloc
  nextId : Nat
deriving DecidableEq

/-- The interval-overlap filter `checkIn < checkOut' AND checkOut > checkIn'`
used by every room query. -/
def allocOverlaps (a : RoomAlloc) (checkIn checkOut : Nat) : Bool :=
  decide (a.checkIn < checkOut) && decide (checkIn < a.checkOut)

/-- The `where` filter of `expireStaleRoomHolds`. -/
def roomReapMatch (hotelId : String) (checkIn checkOut now : Nat) (a : RoomAlloc) : Bool :=
  a.hotelId == hotelId && a.status == RStatus.HELD && expiryLt a.holdExpiresAt now &&
    allocOverlaps a checkIn checkOut

/-- `expireStaleRoomHolds`: bulk-update matching rows to `EXPIRED`, clearing
`holdToken`, `holdExpiresAt` and `paymentId`. -/
def expireStaleRoomHolds (hotelId : String) (checkIn checkOut now : Nat)
    (allocs : List RoomAlloc) : List RoomAlloc :=
  allocs.map fun a =>
    if roomReapMatch hotelId checkIn checkOut now a then
      { a with
          status := RStatus.EXPIRED
          holdToken := none
          holdExpiresAt := none
          paymentId := none }
    else a

/-- Prisma `hotelRoomAllocation.update({ where: { id } })`. -/
def allocUpdateById (id : Nat) (f : RoomAlloc → RoomAlloc) (allocs : List RoomAlloc) :
    List RoomAlloc :=
  allocs.map fun a => if a.id == id then f a else a

/-- JS `parseInt(s, 10)` restricted to the digit-run case: the number denoted
by the leading decimal digits of `s`, or `NaN` (`none`) when there are none. -/
def parseIntLeading (s : String) : Option Nat :=
  let ds := s.toList.takeWhile Char.isDigit
  if ds.isEmpty then none
  else some (ds.foldl (fun n c => n * 10 + (c.toNat - 48)) 0)

/-- The comparator of `findConsecutiveRooms`: numeric when both room numbers
parse, otherwise `localeCompare` (string order). -/
def roomNumberLe (a b : String) : Bool :=
  match parseIntLeading a, parseIntLeading b with
  | some x, some y => decide (x ≤ y)
  | _, _ => decide (a ≤ b)

/-- Insertion into a list sorted by `le`. -/
def insertSortedBy (le : String → String → Bool) (x : String) :
    List String → List String
  | [] => [x]
  | y :: ys => if le x y then x :: y :: ys else y :: insertSortedBy le x ys

/-- Sorting by `le` (insertion sort). -/
def sortRoomNumbers (le : String → String → Bool) (l : List String) : List String :=
  l.foldr (insertSortedBy le) []

/-- Adjacent room numbers `prev`, `curr` with `curr = prev + 1` (both must
parse as integers). -/
def consecutivePair (a b : String) : Bool :=
  match parseIntLeading a, parseIntLeading b with
  | some p, some c => c == p + 1
  | _, _ => false

/-- A whole slice forms an unbroken numeric run. -/
def consecutiveSlice : List String → Bool
  | [] => true
  | [_] => true
  | a :: b :: rest => consecutivePair a b && consecutiveSlice (b :: rest)

/-- `findConsecutiveRooms(rooms, count)` on the room-number projection:
sort, scan every window of size `count` for a consecutive run, fall back to
the first `count` sorted rooms; `null` when fewer than `count` exist. -/
def findConsecutiveRooms (roomNumbers : List String) (count : Nat) :
    Option (List String) :=
  if roomNumbers.length < count then none
  else
    let sorted := sortRoomNumbers roomNumberLe roomNumbers
    match (List.range (sorted.length - count + 1)).find?
        (fun i => consecutiveSlice ((sorted.drop i).take count)) with
    | some i => some ((sorted.drop i).take count)
    | none => some (sorted.take count)

/-- One entry of the `rejectedRooms` response list. -/
structure RoomRejection where
  roomNumber : String
  reason : String
deriving DecidableEq

/-- Result of the `holdRooms` endpoint. -/
inductive HoldRoomsResult where
  | ok (holdToken : String) (checkIn checkOut expiresAt : Nat)
      (heldRooms : List String) (rejectedRooms : List RoomRejection)
  | err (statusCode : Nat) (message : String) (rejectedRooms : List RoomRejection)
deriving DecidableEq

/-- The `findFirst` lookup of the per-room loop in `holdRooms`: the first
allocation of this hotel and room whose interval overlaps the requested one
(any status). -/
def roomFindFirstOverlap (hotelId roomNumber : String) (checkIn checkOut : Nat)
    (allocs : List RoomAlloc) : Option RoomAlloc :=
  allocs.find? fun a =>
    a.hotelId == hotelId && a.roomNumber == roomNumber &&
      allocOverlaps a checkIn checkOut

/-- The body of the per-room loop inside the `holdRooms` transaction.
State is `(hotel state, heldRooms, rejectedRooms)`. -/
def holdRoomStep (rooms : List HotelRoom) (hotelId tripId : String)
    (checkIn checkOut : Nat) (uid token : String) (now expiresAt : Nat)
    (st : HotelState × List String × List RoomRejection) (roomNumber : String) :
    HotelState × List String × List RoomRejection :=
  let hs := st.1
  let held := st.2.1
  let rejected := st.2.2
  match roomFindFirstOverlap hotelId roomNumber checkIn checkOut hs.allocs with
  | none =>
      let hotelRoomId := ((rooms.find? fun rm => rm.roomNumber == roomNumber).map
        (fun rm => rm.id)).getD ""
      ({ allocs := hs.allocs ++ [{ id := hs.nextId
                                   hotelId := hotelId
                                   hotelRoomId := hotelRoomId
                                   tripId := tripId
                                   roomNumber := roomNumber
                                   checkIn := checkIn
                                   checkOut := checkOut
                                   status := RStatus.HELD
                                   holdToken := some token
                                   holdExpiresAt := some expiresAt
                                   userId := uid
                                   paymentId := none
                                   bookingId := none }]
         nextId := hs.nextId + 1 },
       held ++ [roomNumber], rejected)
  | some a =>
      if a.status = RStatus.BOOKED then
        (hs, held, rejected ++ [⟨roomNumber, "Room already booked"⟩])
      else
        let holdExpired : Bool :=
          a.status == RStatus.HELD && expiryLe a.holdExpiresAt now
        let sameUserHold : Bool := a.userId == uid && a.holdToken == some token
        if holdExpired || sameUserHold || a.userId == uid then
          let updated := allocUpdateById a.id
            (fun a0 => { a0 with
                           status := RStatus.HELD
                           holdToken := some token
                           holdExpiresAt := some expiresAt
                           userId := uid
                           tripId := tripId
                           paymentId := none
                           bookingId := none }) hs.allocs
          ({ hs with allocs := updated }, held ++ [roomNumber], rejected)
        else
          (hs, held, rejected ++ [⟨roomNumber, "Room currently held by another traveler"⟩])

/-- Room numbers made unavailable for `[checkIn, checkOut)` by a `HELD` or
`BOOKED` overlapping allocation. -/
def unavailableRoomNumbers (hotelId : String) (checkIn checkOut : Nat)
    (allocs : List RoomAlloc) : List String :=
  (allocs.filter fun a =>
      a.hotelId == hotelId &&
        (a.status == RStatus.HELD || a.status == RStatus.BOOKED) &&
        allocOverlaps a checkIn checkOut).map fun a => a.roomNumber

/-- `holdRooms` endpoint (`POST /api/hotels/:id/hold`).  `rooms` is the
`hotelRoom` catalog.  A `roomNumbers` list takes precedence over
`roomsNeeded`; with only a count the contiguous-block search picks the rooms.
Errors thrown inside the transaction (`NOT_ENOUGH`/invalid rooms) roll the
state back; the `heldRooms`-empty 409 is raised after commit. -/
def holdRooms (rooms : List HotelRoom) (hotelId tripId : String)
    (checkIn checkOut : Nat) (roomNumbers : List String) (roomsNeeded : Nat)
    (reqToken : Option String) (freshToken uid : String) (now : Nat)
    (s : HotelState) : HoldRoomsResult × HotelState :=
  if checkOut ≤ checkIn then
    (HoldRoomsResult.err 400 "Check-out date must be after check-in date" [], s)
  else
    let token := reqToken.getD freshToken
    let expiresAt := now + ROOM_HOLD_DURATION_SECONDS
    let sanitized := dedupKeepFirst roomNumbers
    let desired := if sanitized.length ≠ 0 then sanitized.length else roomsNeeded
    if desired = 0 then
      (HoldRoomsResult.err 400 "Provide room numbers or roomsNeeded to hold" [], s)
    else
      let reaped : HotelState :=
        { s with allocs := expireStaleRoomHolds hotelId checkIn checkOut now s.allocs }
      let finalNumbers? : Option (List String) :=
        if sanitized.isEmpty then
          let unavailable := unavailableRoomNumbers hotelId checkIn checkOut reaped.allocs
          let availableRooms := (rooms.filter fun rm =>
            rm.hotelId == hotelId && !unavailable.contains rm.roomNumber).map
              fun rm => rm.roomNumber
          match findConsecutiveRooms availableRooms desired with
          | none => none
          | some suggestion =>
              if suggestion.length < desired then none else some suggestion
        else some sanitized
      match finalNumbers? with
      | none =>
          (HoldRoomsResult.err 409
            "Not enough consecutive rooms available for the requested dates." [], s)
      | some finalRoomNumbers =>
          let roomsFound := rooms.filter fun rm =>
            rm.hotelId == hotelId && finalRoomNumbers.contains rm.roomNumber
          if roomsFound.length ≠ finalRoomNumbers.length then
            let missing := finalRoomNumbers.filter fun rn =>
              !(roomsFound.any fun rm => rm.roomNumber == rn)
            (HoldRoomsResult.err 400
              ("Invalid room numbers: " ++ String.intercalate ", " missing) [], s)
          else
            let res := finalRoomNumbers.foldl
              (holdRoomStep roomsFound hotelId tripId checkIn checkOut uid token
                now expiresAt)
              (reaped, [], [])
            if res.2.1.isEmpty then
              (HoldRoomsResult.err 409 "Unable to hold requested rooms" res.2.2, res.1)
            else
              (HoldRoomsResult.ok token checkIn checkOut expiresAt res.2.1 res.2.2,
               res.1)

/-- Arguments of the `releaseRooms` endpoint (dates validated: both or
neither, and `checkOut > checkIn`). -/
structure ReleaseRoomsArgs where
  hotelId : String
  holdToken : String
  dates : Option (Nat × Nat)
  roomNumbers : Option (List String)
  callerId : String
  callerIsAdmin : Bool

/-- The `updateMany` filter assembled by `releaseRooms`: note it restricts by
interval containment (`checkIn >= from, checkOut <= to`), not overlap. -/
def releaseRoomMatch (a : ReleaseRoomsArgs) (r : RoomAlloc) : Bool :=
  r.hotelId == a.hotelId && r.holdToken == some a.holdToken &&
    r.status == RStatus.HELD &&
    (match a.dates with
     | some (ci, co) => decide (ci ≤ r.checkIn) && decide (r.checkOut ≤ co)
     | none => true) &&
    (match a.roomNumbers with
     | some rns => rns.contains r.roomNumber
     | none => true) &&
    (a.callerIsAdmin || r.userId == a.callerId)

/-- `releaseRooms` endpoint (`DELETE /api/hotels/:id/hold/:holdToken`). -/
def releaseRooms (a : ReleaseRoomsArgs) (s : HotelState) : HotelState × Nat :=
  ({ s with allocs := s.allocs.map fun r =>
       if releaseRoomMatch a r then
         { r with
             status := RStatus.RELEASED
             holdToken := none
             holdExpiresAt := none
             paymentId := none
             bookingId := none }
       else r },
   (s.allocs.filter (releaseRoomMatch a)).length)

/-- One entry of the `confirmedRooms` response list. -/
structure ConfirmedRoom where
  roomNumber : String
  checkIn : Nat
  checkOut : Nat
deriving DecidableEq

/-- Result of the `confirmRooms` endpoint. -/
inductive ConfirmRoomsResult where
  | ok (confirmedRooms : List ConfirmedRoom) (conflicts : List RoomRejection)
  | err (statusCode : Nat) (message : String) (conflicts : List RoomRejection)
deriving DecidableEq

/-- The snapshot query of `confirmRooms`: this user's `HELD` allocations for
the token, optionally restricted to contained intervals and listed rooms. -/
def confirmRoomMatch (hotelId token uid : String) (dates : Option (Nat × Nat))
    (roomNumbers : Option (List String)) (r : RoomAlloc) : Bool :=
  r.hotelId == hotelId && r.holdToken == some token && r.userId == uid &&
    r.status == RStatus.HELD &&
    (match dates with
     | some (ci, co) => decide (ci ≤ r.checkIn) && decide (r.checkOut ≤ co)
     | none => true) &&
    (match roomNumbers with
     | some rns => rns.contains r.roomNumber
     | none => true)

/-- Per-allocation body of the `confirmRooms` transaction. -/
def confirmRoomStep (bookingId paymentId : Option String) (now : Nat)
    (st : List RoomAlloc × List ConfirmedRoom × List RoomRejection)
    (a : RoomAlloc) : List RoomAlloc × List ConfirmedRoom × List RoomRejection :=
  if expiryLe a.holdExpiresAt now then
    (st.1, st.2.1, st.2.2 ++ [⟨a.roomNumber, "Hold expired"⟩])
  else
    (allocUpdateById a.id
       (fun a0 => { a0 with
                      status := RStatus.BOOKED
                      holdToken := none
                      holdExpiresAt := none
                      bookingId := bookingId
                      paymentId := paymentId }) st.1,
     st.2.1 ++ [⟨a.roomNumber, a.checkIn, a.checkOut⟩], st.2.2)

/-- `confirmRooms` endpoint (`POST /api/hotels/:id/confirm`).  No reap is
performed; expiry is checked per matched allocation.  An empty match set
throws 404 inside the transaction (rollback). -/
def confirmRooms (hotelId token tripId : String) (bookingId paymentId : Option String)
    (dates : Option (Nat × Nat)) (roomNumbers : Option (List String))
    (uid : String) (now : Nat) (s : HotelState) : ConfirmRoomsResult × HotelState :=
  let _ := tripId
  let allocations := s.allocs.filter (confirmRoomMatch hotelId token uid dates roomNumbers)
  if allocations.isEmpty then
    (ConfirmRoomsResult.err 404 "No rooms found for the provided hold token" [], s)
  else
    let res := allocations.foldl (confirmRoomStep bookingId paymentId now)
      (s.allocs, [], [])
    if res.2.1.isEmpty then
      (ConfirmRoomsResult.err 409 "Unable to confirm requested rooms" res.2.2,
       { s with allocs := res.1 })
    else
      (ConfirmRoomsResult.ok res.2.1 res.2.2, { s with allocs := res.1 })

/-- One `hotelBooking` row joined with its parent booking status. -/
structure HotelBooking where
  hotelId : String
  checkIn : Nat
  checkOut : Nat
  roomNumbers : List String
  bookingStatus : Option String
deriving DecidableEq

/-- One room of the availability projection (display fields omitted). -/
structure RoomMapEntry where
  roomNumber : String
  status : String
  holdToken : Option String
  holdExpiresAt : Option Nat
  userId : Option String
  isHeldByUser : Bool
deriving DecidableEq

/-- Room numbers covered by a `CONFIRMED`/`COMPLETED` overlapping booking. -/
def bookedRoomNumbers (hotelId : String) (checkIn checkOut : Nat)
    (bookings : List HotelBooking) : List String :=
  (bookings.filter fun b =>
      b.hotelId == hotelId && decide (b.checkIn < checkOut) &&
        decide (checkIn < b.checkOut) &&
        (match b.bookingStatus with
         | some st => st == "CONFIRMED" || st == "COMPLETED"
         | none => false)).foldl (fun acc b => acc ++ b.roomNumbers) []

/-- The allocation scan of `getRoomAvailability`, with the `break` semantics
of the source loop: a `BOOKED` allocation wins immediately; a live `HELD`
allocation records the hold and stops only when it belongs to the viewer. -/
def roomScan (uid : String) (now : Nat) (st : String × Option RoomAlloc) :
    List RoomAlloc → String × Option RoomAlloc
  | [] => st
  | a :: rest =>
      if a.status = RStatus.BOOKED then ("BOOKED", some a)
      else if a.status = RStatus.HELD ∧ expiryGt a.holdExpiresAt now then
        if a.userId = uid then ("HELD", some a)
        else roomScan uid now ("HELD", some a) rest
      else roomScan uid now st rest

/-- Classification of one room in `getRoomAvailability`. -/
def classifyRoom (booked : List String) (allocations : List RoomAlloc)
    (uid : String) (now : Nat) (room : HotelRoom) : RoomMapEntry :=
  let roomAllocations := allocations.filter fun a => a.roomNumber == room.roomNumber
  let start : String × Option RoomAlloc :=
    (if booked.contains room.roomNumber then "BOOKED" else "AVAILABLE", none)
  let res := roomScan uid now start roomAllocations
  let isHeldByUser :=
    match res.2 with
    | some a => a.status == RStatus.HELD && a.userId == uid &&
        (match a.holdExpiresAt with
         | none => true
         | some e => decide (now < e))
    | none => false
  { roomNumber := room.roomNumber
    status := res.1
    holdToken := (res.2.map fun a => a.holdToken).getD none
    holdExpiresAt := (res.2.map fun a => a.holdExpiresAt).getD none
    userId := res.2.map fun a => a.userId
    isHeldByUser := isHeldByUser }

/-- `getRoomAvailability` endpoint (`GET /api/hotels/:id/rooms`): first reaps
the scope inside the transaction, then projects every catalog room to a
status; optionally computes `suggestedRooms` from the `AVAILABLE` rooms.
`rooms` stands for the result of the `hotelRoom` query, which the database
already returns ordered by `roomNumber` ascending. -/
def getRoomAvailability (rooms : List HotelRoom) (bookings : List HotelBooking)
    (hotelId : String) (checkIn checkOut : Nat) (uid : String)
    (roomsNeeded : Option Nat) (now : Nat) (s : HotelState) :
    HotelState × List RoomMapEntry × List String :=
  let reaped : HotelState :=
    { s with allocs := expireStaleRoomHolds hotelId checkIn checkOut now s.allocs }
  let catalogRooms := rooms.filter fun rm => rm.hotelId == hotelId
  let allocationList := reaped.allocs.filter fun a =>
    a.hotelId == hotelId &&
      (a.status == RStatus.HELD || a.status == RStatus.BOOKED) &&
      allocOverlaps a checkIn checkOut
  let booked := bookedRoomNumbers hotelId checkIn checkOut bookings
  let normalizedRooms := catalogRooms.map (classifyRoom booked allocationList uid now)
  let suggested :=
    match roomsNeeded with
    | some k =>
        let available := (normalizedRooms.filter fun r => r.status == "AVAILABLE").map
          fun r => r.roomNumber
        match findConsecutiveRooms available k with
        | some suggestion => suggestion
        | none => []
    | none => []
  (reaped, normalizedRooms, suggested)

/-! ## Concrete fixtures

Small catalogs and ledger states used by the concrete theorems below.
Calendar dates are abstract day numbers; in the scenarios taken from the
spec, `2025-12-0d` is encoded as the day number `d`. -/

/-- A bus `b` with seats `S1`, `S2`, `S3`. -/
def seatsB : List BusSeat := [⟨"s1", "b", "S1"⟩, ⟨"s2", "b", "S2"⟩, ⟨"s3", "b", "S3"⟩]

/-- A `BOOKED` reservation row for seat `S2` of bus `b` on day 1. -/
def bookedS2 : SeatRes :=
  { busId := "b", busSeatId := "s2", tripId := "t0", journeyDate := 1,
    seatNumber := "S2", status := RStatus.BOOKED, holdToken := none,
    holdExpiresAt := none, userId := "u0", paymentId := none, bookingId := none }

/-- A `HELD` reservation for seat `S1` of bus `b` on day 1, owned by `u1`
with token `tok1`, whose hold expired at time 5. -/
def expiredHeldS1 : SeatRes :=
  { busId := "b", busSeatId := "s1", tripId := "t0", journeyDate := 1,
    seatNumber := "S1", status := RStatus.HELD, holdToken := some "tok1",
    holdExpiresAt := some 5, userId := "u1", paymentId := none, bookingId := none }

/-- A hotel `h` with rooms `101`..`110`. -/
def roomsH : List HotelRoom :=
  (List.range 10).map fun i => ⟨"r" ++ toString (101 + i), "h", toString (101 + i)⟩

/-- A `BOOKED` allocation of the given id and room covering days `[1, 5)`. -/
def bookedAlloc (i : Nat) (rn : String) : RoomAlloc :=
  { id := i, hotelId := "h", hotelRoomId := "r" ++ rn, tripId := "t0",
    roomNumber := rn, checkIn := 1, checkOut := 5, status := RStatus.BOOKED,
    holdToken := none, holdExpiresAt := none, userId := "u0",
    paymentId := none, bookingId := none }

/-- Rooms `101`, `102`, `106`..`110` booked for `[1, 5)`: the free rooms are
exactly the contiguous run `103`, `104`, `105`. -/
def occupiedExcept103to105 : HotelState :=
  { allocs := [bookedAlloc 0 "101", bookedAlloc 1 "102", bookedAlloc 2 "106",
               bookedAlloc 3 "107", bookedAlloc 4 "108", bookedAlloc 5 "109",
               bookedAlloc 6 "110"], nextId := 7 }

/-- All rooms but `103` booked for `[1, 5)`. -/
def occupiedExcept103 : HotelState :=
  { allocs := [bookedAlloc 0 "101", bookedAlloc 1 "102", bookedAlloc 2 "104",
               bookedAlloc 3 "105", bookedAlloc 4 "106", bookedAlloc 5 "107",
               bookedAlloc 6 "108", bookedAlloc 7 "109", bookedAlloc 8 "110"],
    nextId := 9 }

/-- All rooms but `101`, `103`, `105` booked for `[1, 5)`: no contiguous pair
of free rooms exists. -/
def occupiedExceptOdd : HotelState :=
  { allocs := [bookedAlloc 0 "102", bookedAlloc 1 "104", bookedAlloc 2 "106",
               bookedAlloc 3 "107", bookedAlloc 4 "108", bookedAlloc 5 "109",
               bookedAlloc 6 "110"], nextId := 7 }

/-- An expired hold of user `u0` (token `tokA`, expiry 5) on room `101` for
days `[1, 5)`. -/
def expiredRoomHold : HotelState :=
  { allocs := [{ id := 0, hotelId := "h", hotelRoomId := "r101", tripId := "t0",
                 roomNumber := "101", checkIn := 1, checkOut := 5,
                 status := RStatus.HELD, holdToken := some "tokA",
                 holdExpiresAt := some 5, userId := "u0",
                 paymentId := none, bookingId := none }], nextId := 1 }

/-- A `RELEASED` allocation row on room `101` for days `[1, 5)` owned by the
given user. -/
def releasedAlloc (u : String) : RoomAlloc :=
  { id := 0, hotelId := "h", hotelRoomId := "r101", tripId := "t0",
    roomNumber := "101", checkIn := 1, checkOut := 5,
    status := RStatus.RELEASED, holdToken := none,
    holdExpiresAt := none, userId := u,
    paymentId := none, bookingId := none }

/-- A `RELEASED` allocation owned by `u0` on room `101` for days `[1, 5)`. -/
def releasedRoomOfU0 : HotelState := { allocs := [releasedAlloc "u0"], nextId := 1 }

/-- A `RELEASED` allocation owned by `u1` on room `101` for days `[1, 5)`. -/
def releasedRoomOfU1 : HotelState := { allocs := [releasedAlloc "u1"], nextId := 1 }

/-- A `RELEASED` reservation row for seat `S1` of bus `b` on day 1, formerly
owned by `u0`. -/
def releasedSeatS1 : SeatRes :=
  { busId := "b", busSeatId := "s1", tripId := "t0", journeyDate := 1,
    seatNumber := "S1", status := RStatus.RELEASED, holdToken := none,
    holdExpiresAt := none, userId := "u0", paymentId := none, bookingId := none }

/-- A hotel `h` having just room `12`, and a `BOOKED` allocation of room `12`
covering days `[1, 5)` (the spec scenario `[2025-12-01, 2025-12-05)`). -/
def rooms12 : List HotelRoom := [⟨"r12", "h", "12"⟩]

/-- The `BOOKED` `[1, 5)` allocation row of room `12`. -/
def bookedAlloc12 : RoomAlloc :=
  { id := 0, hotelId := "h", hotelRoomId := "r12", tripId := "t0",
    roomNumber := "12", checkIn := 1, checkOut := 5,
    status := RStatus.BOOKED, holdToken := none,
    holdExpiresAt := none, userId := "u0",
    paymentId := none, bookingId := none }

/-- The ledger holding only `bookedAlloc12`. -/
def bookedRoom12 : HotelState := { allocs := [bookedAlloc12], nextId := 1 }

/-- An unexpired `HELD` `[1, 5)` allocation of room `12` owned by `u0` with
token `tokA` (expiry 1000). -/
def heldRoom12 : HotelState :=
  { allocs := [{ id := 0, hotelId := "h", hotelRoomId := "r12", tripId := "t0",
                 roomNumber := "12", checkIn := 1, checkOut := 5,
                 status := RStatus.HELD, holdToken := some "tokA",
                 holdExpiresAt := some 1000, userId := "u0",
                 paymentId := none, bookingId := none }], nextId := 1 }

/-! ## General lemmas about the per-unit loops -/

/-- Each iteration of the `holdSeats` loop either grants the seat (appending
it to `heldSeats`) or rejects it with a reason (appending to
`rejectedSeats`); it never drops the seat or disturbs earlier outcomes. -/
theorem holdSeatStep_outcome (seats : List BusSeat) (busId tripId : String)
    (journeyDate : Nat) (uid token : String) (now expiresAt : Nat)
    (st : List SeatRes × List String × List SeatRejection) (sn : String) :
    (∃ rows', holdSeatStep seats busId tripId journeyDate uid token now expiresAt st sn =
        (rows', st.2.1 ++ [sn], st.2.2)) ∨
    (∃ reason, holdSeatStep seats busId tripId journeyDate uid token now expiresAt st sn =
        (st.1, st.2.1, st.2.2 ++ [⟨sn, reason⟩])) := by
  simp only [holdSeatStep]
  split
  · exact Or.inl ⟨_, rfl⟩
  · split
    · exact Or.inr ⟨_, rfl⟩
    · split
      · split
        · exact Or.inl ⟨_, rfl⟩
        · exact Or.inr ⟨_, rfl⟩
      · exact Or.inl ⟨_, rfl⟩

/-- The `holdSeats` loop partitions the attempted seat list into the granted
and the rejected seats, in request order: no rejection aborts the rest of
the batch. -/
theorem holdSeatsLoop_partition (seats : List BusSeat) (busId tripId : String)
    (journeyDate : Nat) (uid token : String) (now expiresAt : Nat) :
    ∀ (sns : List String) (st : List SeatRes × List String × List SeatRejection),
      ∃ h' r',
        (sns.foldl (holdSeatStep seats busId tripId journeyDate uid token now expiresAt)
          st).2.1 = st.2.1 ++ h' ∧
        (sns.foldl (holdSeatStep seats busId tripId journeyDate uid token now expiresAt)
          st).2.2 = st.2.2 ++ r' ∧
        List.Sublist h' sns ∧
        List.Sublist (r'.map SeatRejection.seatNumber) sns ∧
        h'.length + r'.length = sns.length := by
  intro sns
  induction sns with
  | nil =>
      intro st
      exact ⟨[], [], by simp, by simp, List.Sublist.refl _, by simp, rfl⟩
  | cons sn rest ih =>
      intro st
      rcases holdSeatStep_outcome seats busId tripId journeyDate uid token now expiresAt
          st sn with ⟨rows', heq⟩ | ⟨reason, heq⟩
      · obtain ⟨h', r', H1, H2, H3, H4, H5⟩ :=
          ih (holdSeatStep seats busId tripId journeyDate uid token now expiresAt st sn)
        refine ⟨sn :: h', r', ?_, ?_, H3.cons₂ sn, H4.cons sn, ?_⟩
        · rw [List.foldl_cons, H1, heq]; simp
        · rw [List.foldl_cons, H2, heq]
        · simp only [List.length_cons]
          omega
      · obtain ⟨h', r', H1, H2, H3, H4, H5⟩ :=
          ih (holdSeatStep seats busId tripId journeyDate uid token now expiresAt st sn)
        refine ⟨h', ⟨sn, reason⟩ :: r', ?_, ?_, H3.cons sn, ?_, ?_⟩
        · rw [List.foldl_cons, H1, heq]
        · rw [List.foldl_cons, H2, heq]; simp
        · simpa using H4.cons₂ sn
        · simp only [List.length_cons]
          omega

/-! ## Claims -/

/-- C3: holding `[S1, S2, S3]` where `S2` is `BOOKED` and `S1`, `S3` are free
succeeds with `heldSeats = [S1, S3]` and `rejectedSeats` exactly `S2` with an
already-booked reason; in general the loop gives every attempted seat exactly
one outcome (held or rejected, in request order), so a rejected seat never
aborts the holding of the other seats in the batch. -/
theorem C3_partial_success_exact :
    ((holdSeats seatsB "b" "t1" 1 ["S1", "S2", "S3"] none "tok" "u1" 100 [bookedS2]).1 =
      HoldSeatsResult.ok "tok" 400 ["S1", "S3"] [⟨"S2", "Seat already booked"⟩]) ∧
    ∀ (seats : List BusSeat) (busId tripId : String) (journeyDate : Nat)
      (uid token : String) (now expiresAt : Nat) (sanitized : List String)
      (rows : List SeatRes),
      List.Sublist (holdSeatsLoop seats busId tripId journeyDate uid token now
        expiresAt sanitized rows).2.1 sanitized ∧
      List.Sublist ((holdSeatsLoop seats busId tripId journeyDate uid token now
        expiresAt sanitized rows).2.2.map SeatRejection.seatNumber) sanitized ∧
      (holdSeatsLoop seats busId tripId journeyDate uid token now expiresAt
        sanitized rows).2.1.length +
        (holdSeatsLoop seats busId tripId journeyDate uid token now expiresAt
          sanitized rows).2.2.length = sanitized.length := by
  constructor
  · decide
  · intro seats busId tripId journeyDate uid token now expiresAt sanitized rows
    obtain ⟨h', r', H1, H2, H3, H4, H5⟩ :=
      holdSeatsLoop_partition seats busId tripId journeyDate uid token now expiresAt
        sanitized (expireStaleSeatHolds busId journeyDate now rows, [], [])
    unfold holdSeatsLoop
    rw [H1, H2]
    simpa using ⟨H3, H4, H5⟩

/-- C6: with only `roomsNeeded` given, `holdRooms` picks the first contiguous
run of free rooms in numeric order (`[103, 104, 105]` when exactly those are
free among `101..110`), falls back to the first `roomsNeeded` available rooms
in sorted order when no contiguous run exists, and fails with a 409
not-enough-rooms error (writing no hold) when fewer than `roomsNeeded` rooms
are available. -/
theorem C6_contiguous_block_search :
    ((holdRooms roomsH "h" "t1" 1 5 [] 3 none "tok" "u1" 100 occupiedExcept103to105).1 =
      HoldRoomsResult.ok "tok" 1 5 400 ["103", "104", "105"] []) ∧
    ((holdRooms roomsH "h" "t1" 1 5 [] 2 none "tok" "u1" 100 occupiedExceptOdd).1 =
      HoldRoomsResult.ok "tok" 1 5 400 ["101", "103"] []) ∧
    (holdRooms roomsH "h" "t1" 1 5 [] 2 none "tok" "u1" 100 occupiedExcept103 =
      (HoldRoomsResult.err 409
        "Not enough consecutive rooms available for the requested dates." [],
       occupiedExcept103)) := by
  refine ⟨by decide, by decide, by decide⟩

/-- C5: code-bug witness.  For a `HELD` room hold with `holdExpiresAt` in the
past, the availability query does report the room `AVAILABLE`, and for seats
a fresh hold by another user does succeed — but `holdRooms` by another user
is rejected with reason `Room currently held by another traveler`, because
the in-transaction reap has already turned the row `EXPIRED` (nulling its
token), and the re-hold branch then only admits the original owner.  The
allocation stays `EXPIRED` for `u0` and `u2` acquires nothing. -/
theorem C5_expired_hold_room_rehold_fails :
    (((getRoomAvailability roomsH [] "h" 1 5 "u2" none 100 expiredRoomHold).2.1.map
        fun e => (e.roomNumber, e.status)).head? = some ("101", "AVAILABLE")) ∧
    (((getSeatMap seatsB [] "b" 1 100 [expiredHeldS1]).2.map
        fun e => (e.seatNumber, e.status)).head? = some ("S1", "AVAILABLE")) ∧
    ((holdSeats seatsB "b" "t1" 1 ["S1"] none "tokB" "u2" 100 [expiredHeldS1]).1 =
      HoldSeatsResult.ok "tokB" 400 ["S1"] []) ∧
    ((holdRooms roomsH "h" "t1" 1 5 ["101"] 0 none "tokB" "u2" 100 expiredRoomHold).1 =
      HoldRoomsResult.err 409 "Unable to hold requested rooms"
        [⟨"101", "Room currently held by another traveler"⟩]) ∧
    (((holdRooms roomsH "h" "t1" 1 5 ["101"] 0 none "tokB" "u2" 100 expiredRoomHold).2.allocs.map
        fun a => (a.status, a.userId)) = [(RStatus.EXPIRED, "u0")]) := by
  refine ⟨by decide, by decide, by decide, by decide, by decide⟩

/-- C4 counterexample: with a correct token and owner but `holdExpiresAt` in
the past, `confirmSeats` reports the conflict as `Hold token mismatch`, not
`Hold expired` — the in-transaction reap has already reclassified the row to
`EXPIRED` and nulled its token before the per-seat expiry check runs.  (The
row is indeed not transitioned to `BOOKED`.) -/
theorem C4_counterexample_reason_is_mismatch :
    ((confirmSeats "b" "tok1" "t1" none none [⟨1, ["S1"]⟩] "u1" 10 [expiredHeldS1]).1 =
      ConfirmSeatsResult.err 409 "Some seats could not be confirmed" []
        [⟨"S1", 1, "Hold token mismatch"⟩]) ∧
    ((confirmSeats "b" "tok1" "t1" none none [⟨1, ["S1"]⟩] "u1" 10 [expiredHeldS1]).1 ≠
      ConfirmSeatsResult.err 409 "Some seats could not be confirmed" []
        [⟨"S1", 1, "Hold expired"⟩]) ∧
    (((confirmSeats "b" "tok1" "t1" none none [⟨1, ["S1"]⟩] "u1" 10 [expiredHeldS1]).2.map
        fun r => r.status) = [RStatus.EXPIRED]) := by
  refine ⟨by decide, by decide, by decide⟩

/-- C8 counterexample: `releaseSeats`, `releaseRooms` and `confirmRooms` do
not execute the expired-hold reap for their scope: a strictly-expired `HELD`
row survives each of them still in status `HELD` (a non-matching release
leaves the ledger untouched), a matching `releaseSeats` even counts the
expired hold as released, and a matching `confirmRooms` reports it as a
`Hold expired` conflict while leaving it `HELD`. -/
theorem C8_counterexample_release_confirm_do_not_reap :
    (releaseSeats ⟨"b", "other-token", none, none, "u2", false⟩ [expiredHeldS1] =
      ([expiredHeldS1], 0)) ∧
    ((releaseSeats ⟨"b", "tok1", none, none, "u1", false⟩ [expiredHeldS1]).2 = 1) ∧
    (releaseRooms ⟨"h", "other-token", none, none, "u2", false⟩ expiredRoomHold =
      (expiredRoomHold, 0)) ∧
    (confirmRooms "h" "tokA" "t1" none none none none "u0" 100 expiredRoomHold =
      (ConfirmRoomsResult.err 409 "Unable to confirm requested rooms"
        [⟨"101", "Hold expired"⟩], expiredRoomHold)) ∧
    ((expiredRoomHold.allocs.map fun a => a.status) = [RStatus.HELD]) := by
  refine ⟨by decide, by decide, by decide, by decide, by decide⟩

/-- C9 counterexample: a `RELEASED` allocation owned by `u0` on room `101`
blocks `holdRooms` by a different authorized user `u1` entirely — the claim
says any authorized user's hold succeeds on a terminal row — and the ledger
is left unchanged, with the rejection reason naming a traveler that holds
nothing. -/
theorem C9_counterexample_terminal_row_other_user :
    holdRooms roomsH "h" "t1" 1 5 ["101"] 0 none "tok" "u1" 100 releasedRoomOfU0 =
      (HoldRoomsResult.err 409 "Unable to hold requested rooms"
        [⟨"101", "Room currently held by another traveler"⟩], releasedRoomOfU0) := by
  decide

/-! ### Release idempotence (C7) -/

/-- The release write applied to a seat row. -/
def clearSeatHold (r : SeatRes) : SeatRes :=
  { r with status := RStatus.RELEASED, holdToken := none, holdExpiresAt := none,
           paymentId := none, bookingId := none }

/-- The release write applied to a room allocation. -/
def clearRoomHold (r : RoomAlloc) : RoomAlloc :=
  { r with status := RStatus.RELEASED, holdToken := none, holdExpiresAt := none,
           paymentId := none, bookingId := none }

theorem releaseSeatMatch_clearSeatHold (a : ReleaseSeatsArgs) (r : SeatRes) :
    releaseSeatMatch a (clearSeatHold r) = false := by
  simp [releaseSeatMatch, clearSeatHold]

theorem releaseRoomMatch_clearRoomHold (a : ReleaseRoomsArgs) (r : RoomAlloc) :
    releaseRoomMatch a (clearRoomHold r) = false := by
  simp [releaseRoomMatch, clearRoomHold]

theorem releaseSeats_eq (a : ReleaseSeatsArgs) (rows : List SeatRes) :
    releaseSeats a rows =
      (rows.map fun r => if releaseSeatMatch a r then clearSeatHold r else r,
       (rows.filter (releaseSeatMatch a)).length) := rfl

theorem releaseRooms_eq (a : ReleaseRoomsArgs) (s : HotelState) :
    releaseRooms a s =
      ({ s with allocs := s.allocs.map fun r =>
           if releaseRoomMatch a r then clearRoomHold r else r },
       (s.allocs.filter (releaseRoomMatch a)).length) := rfl

/-- A release whose filter matches nothing is a no-op returning count 0. -/
theorem releaseSeats_noop (a : ReleaseSeatsArgs) (rows : List SeatRes)
    (h : ∀ r ∈ rows, releaseSeatMatch a r = false) : releaseSeats a rows = (rows, 0) := by
  rw [releaseSeats_eq]
  have hmap : (rows.map fun r => if releaseSeatMatch a r then clearSeatHold r else r) =
      rows.map id := List.map_congr_left fun x hx => by simp [h x hx]
  have hfil : rows.filter (releaseSeatMatch a) = [] :=
    List.filter_eq_nil_iff.mpr fun x hx => by simp [h x hx]
  rw [hmap, List.map_id, hfil]
  rfl

/-- Room analog of `releaseSeats_noop`. -/
theorem releaseRooms_noop (a : ReleaseRoomsArgs) (s : HotelState)
    (h : ∀ r ∈ s.allocs, releaseRoomMatch a r = false) : releaseRooms a s = (s, 0) := by
  rw [releaseRooms_eq]
  have hmap : (s.allocs.map fun r => if releaseRoomMatch a r then clearRoomHold r else r) =
      s.allocs.map id := List.map_congr_left fun x hx => by simp [h x hx]
  have hfil : s.allocs.filter (releaseRoomMatch a) = [] :=
    List.filter_eq_nil_iff.mpr fun x hx => by simp [h x hx]
  rw [hmap, List.map_id, hfil]
  rfl

/-- C7: a release filter that matches no `HELD` row succeeds as a no-op with
`releasedCount = 0`; otherwise exactly the matching `HELD` rows transition to
`RELEASED` with token, expiry, payment and booking cleared (all other rows
are untouched), and releasing the same hold a second time changes nothing
and returns 0 — for seats and for rooms alike. -/
theorem C7_release_idempotent :
    (∀ (a : ReleaseSeatsArgs) (rows : List SeatRes),
      ((∀ r ∈ rows, releaseSeatMatch a r = false) → releaseSeats a rows = (rows, 0)) ∧
      List.Forall₂ (fun old new =>
        if releaseSeatMatch a old then new = clearSeatHold old else new = old)
        rows (releaseSeats a rows).1 ∧
      releaseSeats a (releaseSeats a rows).1 = ((releaseSeats a rows).1, 0)) ∧
    (∀ (a : ReleaseRoomsArgs) (s : HotelState),
      ((∀ r ∈ s.allocs, releaseRoomMatch a r = false) → releaseRooms a s = (s, 0)) ∧
      List.Forall₂ (fun old new =>
        if releaseRoomMatch a old then new = clearRoomHold old else new = old)
        s.allocs (releaseRooms a s).1.allocs ∧
      releaseRooms a (releaseRooms a s).1 = ((releaseRooms a s).1, 0)) := by
  constructor
  · intro a rows
    refine ⟨releaseSeats_noop a rows, ?_, ?_⟩
    · rw [releaseSeats_eq]
      induction rows with
      | nil => exact List.Forall₂.nil
      | cons x xs ih =>
          refine List.Forall₂.cons ?_ ih
          by_cases hx : releaseSeatMatch a x = true
          · simp [hx]
          · simp [eq_false_of_ne_true hx]
    · apply releaseSeats_noop
      intro r hr
      rw [releaseSeats_eq] at hr
      obtain ⟨x, _, rfl⟩ := List.mem_map.mp hr
      by_cases hx : releaseSeatMatch a x = true
      · simp only [hx, if_true]
        exact releaseSeatMatch_clearSeatHold a x
      · simp [eq_false_of_ne_true hx]
  · intro a s
    refine ⟨releaseRooms_noop a s, ?_, ?_⟩
    · rw [releaseRooms_eq]
      induction s.allocs with
      | nil => exact List.Forall₂.nil
      | cons x xs ih =>
          refine List.Forall₂.cons ?_ ih
          by_cases hx : releaseRoomMatch a x = true
          · simp [hx]
          · simp [eq_false_of_ne_true hx]
    · apply releaseRooms_noop
      intro r hr
      rw [releaseRooms_eq] at hr
      obtain ⟨x, _, rfl⟩ := List.mem_map.mp hr
      by_cases hx : releaseRoomMatch a x = true
      · simp only [hx, if_true]
        exact releaseRoomMatch_clearRoomHold a x
      · simp [eq_false_of_ne_true hx]

/-- Witness for C7 at a concrete input: releasing a token that matches
nothing (the ledger holds only a `BOOKED` row) is a counted no-op. -/
theorem C7_release_idempotent_witness :
    releaseSeats ⟨"b", "no-such-token", none, none, "u9", false⟩ [bookedS2] =
      ([bookedS2], 0) :=
  (C7_release_idempotent.1 ⟨"b", "no-such-token", none, none, "u9", false⟩ [bookedS2]).1
    (by decide)

/-! ### Which operations reap their scope (C8) -/

/-- No strictly-expired `HELD` seat reservation remains in the scope. -/
def seatScopeClean (busId : String) (journeyDate now : Nat) (rows : List SeatRes) : Prop :=
  ∀ r ∈ rows, seatReapMatch busId journeyDate now r = false

/-- No strictly-expired `HELD` room allocation remains in the scope. -/
def roomScopeClean (hotelId : String) (checkIn checkOut now : Nat)
    (allocs : List RoomAlloc) : Prop :=
  ∀ a ∈ allocs, roomReapMatch hotelId checkIn checkOut now a = false

/-- The seat reap leaves its own scope clean. -/
theorem expireStaleSeatHolds_clean (busId : String) (journeyDate now : Nat)
    (rows : List SeatRes) :
    seatScopeClean busId journeyDate now (expireStaleSeatHolds busId journeyDate now rows) := by
  intro r hr
  obtain ⟨x, _, rfl⟩ := List.mem_map.mp hr
  by_cases hx : seatReapMatch busId journeyDate now x = true
  · rw [if_pos hx]
    simp [seatReapMatch]
  · rw [if_neg hx]
    exact eq_false_of_ne_true hx

/-- Any seat reap preserves cleanliness of any scope (it can only turn
`HELD` rows into non-`HELD` ones). -/
theorem expireStaleSeatHolds_preserves_clean (b : String) (j n : Nat)
    (b' : String) (j' n' : Nat) (rows : List SeatRes)
    (h : seatScopeClean b j n rows) :
    seatScopeClean b j n (expireStaleSeatHolds b' j' n' rows) := by
  intro r hr
  obtain ⟨x, hx, rfl⟩ := List.mem_map.mp hr
  by_cases hm : seatReapMatch b' j' n' x = true
  · rw [if_pos hm]
    simp [seatReapMatch]
  · rw [if_neg hm]
    exact h x hx

/-- The `holdSeats` loop body keeps the scope clean when the expiry written
by the grant lies at or after `now`. -/
theorem holdSeatStep_clean (seats : List BusSeat) (busId tripId : String)
    (journeyDate : Nat) (uid token : String) (now expiresAt : Nat)
    (hexp : ¬ expiresAt < now)
    (st : List SeatRes × List String × List SeatRejection) (sn : String)
    (h : seatScopeClean busId journeyDate now st.1) :
    seatScopeClean busId journeyDate now
      (holdSeatStep seats busId tripId journeyDate uid token now expiresAt st sn).1 := by
  have hfresh : ∀ (r : SeatRes), r.holdExpiresAt = some expiresAt →
      seatReapMatch busId journeyDate now r = false := by
    intro r hr
    simp [seatReapMatch, hr, expiryLt, hexp]
  simp only [holdSeatStep]
  split
  · intro r hr
    rcases List.mem_append.mp hr with hmem | hmem
    · exact h r hmem
    · rw [List.mem_singleton.mp hmem]
      exact hfresh _ rfl
  · split
    · exact h
    · split
      · split
        · intro r hr
          obtain ⟨x, hx, rfl⟩ := List.mem_map.mp hr
          by_cases hk : seatKeyMatch busId journeyDate sn x = true
          · simp only [hk, if_true]
            exact hfresh _ rfl
          · simpa [eq_false_of_ne_true hk] using h x hx
        · exact h
      · intro r hr
        obtain ⟨x, hx, rfl⟩ := List.mem_map.mp hr
        by_cases hk : seatKeyMatch busId journeyDate sn x = true
        · simp only [hk, if_true]
          exact hfresh _ rfl
        · simpa [eq_false_of_ne_true hk] using h x hx

/-- C8 positive half for `holdSeats`: unless it rejects before touching the
ledger, its committed state carries no expired hold for the scope. -/
theorem holdSeats_clean (seats : List BusSeat) (busId tripId : String)
    (journeyDate : Nat) (seatNumbers : List String) (reqToken : Option String)
    (freshToken uid : String) (now : Nat) (rows : List SeatRes) :
    (holdSeats seats busId tripId journeyDate seatNumbers reqToken freshToken uid
      now rows).2 = rows ∨
    seatScopeClean busId journeyDate now
      (holdSeats seats busId tripId journeyDate seatNumbers reqToken freshToken
        uid now rows).2 := by
  have hexp : ¬ now + HOLD_DURATION_SECONDS < now := by omega
  have hloop : ∀ (token : String) (seatsArg : List BusSeat) (sns : List String)
      (st : List SeatRes × List String × List SeatRejection),
      seatScopeClean busId journeyDate now st.1 →
      seatScopeClean busId journeyDate now
        (sns.foldl (holdSeatStep seatsArg busId tripId journeyDate uid
          token now (now + HOLD_DURATION_SECONDS)) st).1 := by
    intro token seatsArg sns
    induction sns with
    | nil => intro st h; exact h
    | cons sn rest ih =>
        intro st h
        rw [List.foldl_cons]
        exact ih _ (holdSeatStep_clean seatsArg busId tripId journeyDate uid
          token now (now + HOLD_DURATION_SECONDS) hexp st sn h)
  have hclean : ∀ (token : String) (seatsArg : List BusSeat) (sns : List String),
      seatScopeClean busId journeyDate now
        (holdSeatsLoop seatsArg busId tripId journeyDate uid token now
          (now + HOLD_DURATION_SECONDS) sns rows).1 := by
    intro token seatsArg sns
    exact hloop token seatsArg sns
      (expireStaleSeatHolds busId journeyDate now rows, [], [])
      (expireStaleSeatHolds_clean busId journeyDate now rows)
  simp only [holdSeats]
  split
  · exact Or.inl rfl
  · split
    · exact Or.inl rfl
    · split
      · exact Or.inl rfl
      · right
        split
        · exact hclean _ _ _
        · exact hclean _ _ _

/-- The `confirmSeats` per-seat body never creates a `HELD` row, so it
preserves cleanliness of every scope. -/
theorem confirmSeatStep_preserves_clean (b : String) (j n : Nat)
    (busId holdToken uid : String) (bookingId paymentId : Option String)
    (journeyDate now : Nat)
    (st : List SeatRes × List ConfirmedSeat × List SeatConflict) (sn : String)
    (h : seatScopeClean b j n st.1) :
    seatScopeClean b j n
      (confirmSeatStep busId holdToken uid bookingId paymentId journeyDate now st sn).1 := by
  simp only [confirmSeatStep]
  split
  · exact h
  · split
    · exact h
    · split
      · exact h
      · split
        · exact h
        · intro r hr
          obtain ⟨x, hx, rfl⟩ := List.mem_map.mp hr
          by_cases hk : seatKeyMatch busId journeyDate sn x = true
          · rw [if_pos hk]
            simp [seatReapMatch]
          · rw [if_neg hk]
            exact h x hx

/-- Folding the `confirmSeats` body preserves cleanliness of every scope. -/
theorem confirmSeatFold_preserves_clean (b : String) (j n : Nat)
    (busId holdToken uid : String) (bookingId paymentId : Option String)
    (journeyDate now : Nat) :
    ∀ (sns : List String) (st : List SeatRes × List ConfirmedSeat × List SeatConflict),
      seatScopeClean b j n st.1 →
      seatScopeClean b j n
        (sns.foldl (confirmSeatStep busId holdToken uid bookingId paymentId
          journeyDate now) st).1 := by
  intro sns
  induction sns with
  | nil => intro st h; exact h
  | cons sn rest ih =>
      intro st h
      rw [List.foldl_cons]
      exact ih _ (confirmSeatStep_preserves_clean b j n busId holdToken uid bookingId
        paymentId journeyDate now st sn h)

/-- One `confirmSeats` leg preserves cleanliness of every scope. -/
theorem confirmSeatLeg_preserves_clean (b : String) (j n : Nat)
    (busId holdToken uid : String) (bookingId paymentId : Option String) (now : Nat)
    (st : List SeatRes × List ConfirmedSeat × List SeatConflict) (leg : ConfirmLeg)
    (h : seatScopeClean b j n st.1) :
    seatScopeClean b j n
      (confirmSeatLeg busId holdToken uid bookingId paymentId now st leg).1 := by
  simp only [confirmSeatLeg]
  split
  · exact h
  · exact confirmSeatFold_preserves_clean b j n busId holdToken uid bookingId paymentId
      leg.journeyDate now leg.seatNumbers _
      (expireStaleSeatHolds_preserves_clean b j n busId leg.journeyDate now st.1 h)

/-- A nonempty `confirmSeats` leg leaves its own scope clean. -/
theorem confirmSeatLeg_clean_own (busId holdToken uid : String)
    (bookingId paymentId : Option String) (now : Nat)
    (st : List SeatRes × List ConfirmedSeat × List SeatConflict) (leg : ConfirmLeg)
    (hne : leg.seatNumbers.isEmpty = false) :
    seatScopeClean busId leg.journeyDate now
      (confirmSeatLeg busId holdToken uid bookingId paymentId now st leg).1 := by
  simp only [confirmSeatLeg, hne, Bool.false_eq_true, if_false]
  exact confirmSeatFold_preserves_clean busId leg.journeyDate now busId holdToken uid
    bookingId paymentId leg.journeyDate now leg.seatNumbers _
    (expireStaleSeatHolds_clean busId leg.journeyDate now st.1)

/-- Folding all `confirmSeats` legs preserves cleanliness of every scope. -/
theorem confirmSeatLegsFold_preserves_clean (b : String) (j n : Nat)
    (busId holdToken uid : String) (bookingId paymentId : Option String) (now : Nat) :
    ∀ (legs : List ConfirmLeg) (st : List SeatRes × List ConfirmedSeat × List SeatConflict),
      seatScopeClean b j n st.1 →
      seatScopeClean b j n
        (legs.foldl (confirmSeatLeg busId holdToken uid bookingId paymentId now) st).1 := by
  intro legs
  induction legs with
  | nil => intro st h; exact h
  | cons leg rest ih =>
      intro st h
      rw [List.foldl_cons]
      exact ih _ (confirmSeatLeg_preserves_clean b j n busId holdToken uid bookingId
        paymentId now st leg h)

/-- C8 positive half for `confirmSeats`: every nonempty leg's scope is clean
in the committed state. -/
theorem confirmSeats_clean (busId holdToken tripId : String)
    (bookingId paymentId : Option String) (legs : List ConfirmLeg)
    (uid : String) (now : Nat) (rows : List SeatRes) :
    ∀ leg ∈ legs, leg.seatNumbers = [] ∨
      seatScopeClean busId leg.journeyDate now
        (confirmSeats busId holdToken tripId bookingId paymentId legs uid now rows).2 := by
  have key : ∀ (legs : List ConfirmLeg)
      (st : List SeatRes × List ConfirmedSeat × List SeatConflict),
      ∀ leg ∈ legs, leg.seatNumbers = [] ∨
        seatScopeClean busId leg.journeyDate now
          (legs.foldl (confirmSeatLeg busId holdToken uid bookingId paymentId now) st).1 := by
    intro legs
    induction legs with
    | nil => intro st leg h; cases h
    | cons l ls ih =>
        intro st leg hmem
        rcases List.mem_cons.mp hmem with rfl | hmem'
        · by_cases hne : leg.seatNumbers.isEmpty = true
          · exact Or.inl (List.isEmpty_iff.mp hne)
          · right
            rw [List.foldl_cons]
            exact confirmSeatLegsFold_preserves_clean busId leg.journeyDate now busId
              holdToken uid bookingId paymentId now ls _
              (confirmSeatLeg_clean_own busId holdToken uid bookingId paymentId now st
                leg (eq_false_of_ne_true hne))
        · rw [List.foldl_cons]
          exact ih _ leg hmem'
  intro leg hmem
  rcases key legs (rows, [], []) leg hmem with hl | hr
  · exact Or.inl hl
  · right
    simp only [confirmSeats]
    split
    · exact hr
    · exact hr

/-- The room reap leaves its own scope clean. -/
theorem expireStaleRoomHolds_clean (hotelId : String) (checkIn checkOut now : Nat)
    (allocs : List RoomAlloc) :
    roomScopeClean hotelId checkIn checkOut now
      (expireStaleRoomHolds hotelId checkIn checkOut now allocs) := by
  intro r hr
  obtain ⟨x, _, rfl⟩ := List.mem_map.mp hr
  by_cases hx : roomReapMatch hotelId checkIn checkOut now x = true
  · rw [if_pos hx]
    simp [roomReapMatch]
  · rw [if_neg hx]
    exact eq_false_of_ne_true hx

/-- The `holdRooms` loop body keeps the scope clean when the expiry written
by the grant lies at or after `now`. -/
theorem holdRoomStep_clean (rooms : List HotelRoom) (hotelId tripId : String)
    (checkIn checkOut : Nat) (uid token : String) (now expiresAt : Nat)
    (hexp : ¬ expiresAt < now)
    (st : HotelState × List String × List RoomRejection) (rn : String)
    (h : roomScopeClean hotelId checkIn checkOut now st.1.allocs) :
    roomScopeClean hotelId checkIn checkOut now
      (holdRoomStep rooms hotelId tripId checkIn checkOut uid token now expiresAt
        st rn).1.allocs := by
  have hfresh : ∀ (r : RoomAlloc), r.holdExpiresAt = some expiresAt →
      roomReapMatch hotelId checkIn checkOut now r = false := by
    intro r hr
    simp [roomReapMatch, hr, expiryLt, hexp]
  simp only [holdRoomStep]
  split
  · intro r hr
    rcases List.mem_append.mp hr with hmem | hmem
    · exact h r hmem
    · rw [List.mem_singleton.mp hmem]
      exact hfresh _ rfl
  · rename_i a heq
    split
    · exact h
    · split
      · intro r hr
        obtain ⟨x, hx, rfl⟩ := List.mem_map.mp hr
        by_cases hk : (x.id == a.id) = true
        · rw [if_pos hk]
          exact hfresh _ rfl
        · rw [if_neg hk]
          exact h x hx
      · exact h

/-- C8 positive half for `holdRooms`: unless the call rejects or rolls back
(leaving the state untouched), its committed state carries no expired hold
for the scope. -/
theorem holdRooms_clean (rooms : List HotelRoom) (hotelId tripId : String)
    (checkIn checkOut : Nat) (roomNumbers : List String) (roomsNeeded : Nat)
    (reqToken : Option String) (freshToken uid : String) (now : Nat) (s : HotelState) :
    (holdRooms rooms hotelId tripId checkIn checkOut roomNumbers roomsNeeded reqToken
      freshToken uid now s).2 = s ∨
    roomScopeClean hotelId checkIn checkOut now
      (holdRooms rooms hotelId tripId checkIn checkOut roomNumbers roomsNeeded
        reqToken freshToken uid now s).2.allocs := by
  have hexp : ¬ now + ROOM_HOLD_DURATION_SECONDS < now := by omega
  have hloop : ∀ (token : String) (roomsArg : List HotelRoom) (rns : List String)
      (st : HotelState × List String × List RoomRejection),
      roomScopeClean hotelId checkIn checkOut now st.1.allocs →
      roomScopeClean hotelId checkIn checkOut now
        (rns.foldl (holdRoomStep roomsArg hotelId tripId checkIn checkOut uid token
          now (now + ROOM_HOLD_DURATION_SECONDS)) st).1.allocs := by
    intro token roomsArg rns
    induction rns with
    | nil => intro st h; exact h
    | cons rn rest ih =>
        intro st h
        rw [List.foldl_cons]
        exact ih _ (holdRoomStep_clean roomsArg hotelId tripId checkIn checkOut uid
          token now (now + ROOM_HOLD_DURATION_SECONDS) hexp st rn h)
  simp only [holdRooms]
  repeat' split
  all_goals
    first
      | exact Or.inl rfl
      | (right
         exact hloop _ _ _
           ({ s with allocs := expireStaleRoomHolds hotelId checkIn checkOut now s.allocs },
            [], [])
           (expireStaleRoomHolds_clean hotelId checkIn checkOut now s.allocs))

/-- C8: corrected claim.  The operations that do reap their scope first are
`holdSeats`, `getSeatMap`, `confirmSeats` (per nonempty leg), `holdRooms`
and `getRoomAvailability`: whenever they commit a state change their
resulting ledger carries no strictly-expired `HELD` row for the touched
scope.  `releaseSeats`, `releaseRooms` and `confirmRooms` do NOT reap:
each leaves a strictly-expired `HELD` row of its scope untouched (still
`HELD`) when the row does not match its filter. -/
theorem C8_reap_scope :
    (∀ (seats : List BusSeat) (busId tripId : String) (journeyDate : Nat)
        (seatNumbers : List String) (reqToken : Option String)
        (freshToken uid : String) (now : Nat) (rows : List SeatRes),
      (holdSeats seats busId tripId journeyDate seatNumbers reqToken freshToken uid
        now rows).2 = rows ∨
      seatScopeClean busId journeyDate now
        (holdSeats seats busId tripId journeyDate seatNumbers reqToken freshToken uid
          now rows).2) ∧
    (∀ (seats : List BusSeat) (bookings : List BusBooking) (busId : String)
        (journeyDate now : Nat) (rows : List SeatRes),
      seatScopeClean busId journeyDate now
        (getSeatMap seats bookings busId journeyDate now rows).1) ∧
    (∀ (busId holdToken tripId : String) (bookingId paymentId : Option String)
        (legs : List ConfirmLeg) (uid : String) (now : Nat) (rows : List SeatRes),
      ∀ leg ∈ legs, leg.seatNumbers = [] ∨
        seatScopeClean busId leg.journeyDate now
          (confirmSeats busId holdToken tripId bookingId paymentId legs uid now rows).2) ∧
    (∀ (rooms : List HotelRoom) (hotelId tripId : String) (checkIn checkOut : Nat)
        (roomNumbers : List String) (roomsNeeded : Nat) (reqToken : Option String)
        (freshToken uid : String) (now : Nat) (s : HotelState),
      (holdRooms rooms hotelId tripId checkIn checkOut roomNumbers roomsNeeded reqToken
        freshToken uid now s).2 = s ∨
      roomScopeClean hotelId checkIn checkOut now
        (holdRooms rooms hotelId tripId checkIn checkOut roomNumbers roomsNeeded
          reqToken freshToken uid now s).2.allocs) ∧
    (∀ (rooms : List HotelRoom) (bookings : List HotelBooking) (hotelId : String)
        (checkIn checkOut : Nat) (uid : String) (roomsNeeded : Option Nat) (now : Nat)
        (s : HotelState),
      roomScopeClean hotelId checkIn checkOut now
        (getRoomAvailability rooms bookings hotelId checkIn checkOut uid roomsNeeded
          now s).1.allocs) ∧
    (((releaseSeats ⟨"b", "other-token", none, none, "u2", false⟩ [expiredHeldS1]).1.map
        fun r => r.status) = [RStatus.HELD]) ∧
    (((releaseRooms ⟨"h", "other-token", none, none, "u2", false⟩ expiredRoomHold).1.allocs.map
        fun a => a.status) = [RStatus.HELD]) ∧
    (((confirmRooms "h" "tokA" "t1" none none none none "u0" 100 expiredRoomHold).2.allocs.map
        fun a => a.status) = [RStatus.HELD]) := by
  refine ⟨?_, ?_, ?_, ?_, ?_, by decide, by decide, by decide⟩
  · intro seats busId tripId journeyDate seatNumbers reqToken freshToken uid now rows
    exact holdSeats_clean seats busId tripId journeyDate seatNumbers reqToken freshToken
      uid now rows
  · intro seats bookings busId journeyDate now rows
    exact expireStaleSeatHolds_clean busId journeyDate now rows
  · intro busId holdToken tripId bookingId paymentId legs uid now rows
    exact confirmSeats_clean busId holdToken tripId bookingId paymentId legs uid now rows
  · intro rooms hotelId tripId checkIn checkOut roomNumbers roomsNeeded reqToken
      freshToken uid now s
    exact holdRooms_clean rooms hotelId tripId checkIn checkOut roomNumbers roomsNeeded
      reqToken freshToken uid now s
  · intro rooms bookings hotelId checkIn checkOut uid roomsNeeded now s
    exact expireStaleRoomHolds_clean hotelId checkIn checkOut now s.allocs

/-- Witness for C8 at a concrete input: after a nonempty `confirmSeats` leg
over the scope of an expired hold, that scope is clean. -/
theorem C8_reap_scope_witness :
    seatScopeClean "b" 1 10
      (confirmSeats "b" "tok1" "t1" none none [⟨1, ["S1"]⟩] "u1" 10 [expiredHeldS1]).2 := by
  rcases C8_reap_scope.2.2.1 "b" "tok1" "t1" none none [⟨1, ["S1"]⟩] "u1" 10
      [expiredHeldS1] ⟨1, ["S1"]⟩ (List.mem_singleton.mpr rfl) with h | h
  · cases h
  · exact h

/-! ### Interval overlap (C2) and expired confirm (C4) -/

/-- `find?` on a one-element list. -/
theorem findSingleton {α : Type} (p : α → Bool) (x : α) :
    List.find? p [x] = if p x then some x else none := by
  cases hx : p x
  · simp [List.find?, hx]
  · simp [List.find?, hx]

/-- The seat reap write preserves the composite key. -/
theorem seatKeyMatch_reap (b : String) (j : Nat) (s : String) (b' : String)
    (j' n' : Nat) (x : SeatRes) :
    seatKeyMatch b j s
      (if seatReapMatch b' j' n' x then
        { x with status := RStatus.EXPIRED, holdToken := none,
                 holdExpiresAt := none, paymentId := none }
      else x) = seatKeyMatch b j s x := by
  by_cases hx : seatReapMatch b' j' n' x = true
  · rw [if_pos hx]
    simp [seatKeyMatch]
  · rw [if_neg hx]

/-- `findUnique` after the seat reap returns the reaped image of the row
`findUnique` returns before it. -/
theorem seatFindUnique_expire (busId : String) (jd now : Nat) (sn : String)
    (rows : List SeatRes) :
    seatFindUnique busId jd sn (expireStaleSeatHolds busId jd now rows) =
      (seatFindUnique busId jd sn rows).map
        (fun r => if seatReapMatch busId jd now r then
          { r with status := RStatus.EXPIRED, holdToken := none,
                   holdExpiresAt := none, paymentId := none }
        else r) := by
  unfold seatFindUnique expireStaleSeatHolds
  rw [List.find?_map]
  congr 1
  apply congrArg (List.find? · rows)
  funext x
  exact seatKeyMatch_reap busId jd sn busId jd now x

/-- `findUnique` after a by-key update returns the updated image of the row
it returns before, provided the update preserves the key. -/
theorem seatFindUnique_update (b : String) (j : Nat) (s : String)
    (f : SeatRes → SeatRes) (rows : List SeatRes)
    (hf : ∀ x, seatKeyMatch b j s (f x) = seatKeyMatch b j s x) :
    seatFindUnique b j s (seatUpdateByKey b j s f rows) =
      (seatFindUnique b j s rows).map
        (fun r => if seatKeyMatch b j s r then f r else r) := by
  unfold seatFindUnique seatUpdateByKey
  rw [List.find?_map]
  congr 1
  apply congrArg (List.find? · rows)
  funext x
  show seatKeyMatch b j s (if seatKeyMatch b j s x = true then f x else x) =
    seatKeyMatch b j s x
  by_cases hx : seatKeyMatch b j s x = true
  · rw [if_pos hx, hf x]
  · rw [if_neg hx]

/-- C2: a conflicting claim on room 12 covering `[1, 5)` (either `BOOKED`,
or `HELD` unexpired by another user) makes `holdRooms` reject the
overlapping request `[4, 8)` without writing any `HELD` row, while the
touching request `[5, 8)` is granted; and in general, for a single existing
claim by another user, the per-room loop rejects the request exactly when
`existing.checkIn < new.checkOut ∧ existing.checkOut > new.checkIn`, and
otherwise creates a fresh `HELD` row for the requested interval. -/
theorem C2_room_interval_overlap :
    (holdRooms rooms12 "h" "t1" 4 8 ["12"] 0 none "tok" "u1" 100 bookedRoom12 =
      (HoldRoomsResult.err 409 "Unable to hold requested rooms"
        [⟨"12", "Room already booked"⟩], bookedRoom12)) ∧
    ((holdRooms rooms12 "h" "t1" 4 8 ["12"] 0 none "tok" "u1" 100 heldRoom12).1 =
      HoldRoomsResult.err 409 "Unable to hold requested rooms"
        [⟨"12", "Room currently held by another traveler"⟩]) ∧
    ((holdRooms rooms12 "h" "t1" 5 8 ["12"] 0 none "tok" "u1" 100 bookedRoom12).1 =
      HoldRoomsResult.ok "tok" 5 8 400 ["12"] []) ∧
    (∀ (rooms : List HotelRoom) (hotelId tripId rn uid token : String)
        (ci co now expiresAt : Nat) (a : RoomAlloc) (n : Nat)
        (held : List String) (rejected : List RoomRejection),
      a.hotelId = hotelId → a.roomNumber = rn → a.userId ≠ uid →
      (a.status = RStatus.BOOKED ∨
        (a.status = RStatus.HELD ∧ expiryLe a.holdExpiresAt now = false)) →
      ((a.checkIn < co ∧ ci < a.checkOut) →
        holdRoomStep rooms hotelId tripId ci co uid token now expiresAt
          (⟨[a], n⟩, held, rejected) rn =
          (⟨[a], n⟩, held, rejected ++
            [⟨rn, if a.status = RStatus.BOOKED then "Room already booked"
                  else "Room currently held by another traveler"⟩])) ∧
      (¬(a.checkIn < co ∧ ci < a.checkOut) →
        ∃ newRow,
          holdRoomStep rooms hotelId tripId ci co uid token now expiresAt
            (⟨[a], n⟩, held, rejected) rn =
            (⟨[a, newRow], n + 1⟩, held ++ [rn], rejected) ∧
          newRow.checkIn = ci ∧ newRow.checkOut = co ∧
          newRow.status = RStatus.HELD ∧ newRow.holdToken = some token ∧
          newRow.userId = uid)) := by
  refine ⟨by decide, by decide, by decide, ?_⟩
  intro rooms hotelId tripId rn uid token ci co now expiresAt a n held rejected
    ha1 ha2 huser hstat
  constructor
  · intro hov
    have hp : (a.hotelId == hotelId && a.roomNumber == rn &&
        allocOverlaps a ci co) = true := by
      simp [ha1, ha2, allocOverlaps, hov.1, hov.2]
    have hfind : roomFindFirstOverlap hotelId rn ci co [a] = some a := by
      unfold roomFindFirstOverlap
      rw [findSingleton, if_pos hp]
    rcases hstat with hb | ⟨hh, hexp⟩
    · simp [holdRoomStep, hfind, hb]
    · have huserb : (a.userId == uid) = false := by
        simp [huser]
      simp [holdRoomStep, hfind, hh, hexp, huserb]
  · intro hnov
    have hp : (a.hotelId == hotelId && a.roomNumber == rn &&
        allocOverlaps a ci co) = false := by
      simp only [allocOverlaps, Bool.and_eq_false_iff, decide_eq_false_iff_not]
      rcases Decidable.not_and_iff_or_not.mp hnov with h1 | h2
      · exact Or.inr (Or.inl h1)
      · exact Or.inr (Or.inr h2)
    have hfind : roomFindFirstOverlap hotelId rn ci co [a] = none := by
      unfold roomFindFirstOverlap
      rw [findSingleton, if_neg]
      simp only [hp]
      exact Bool.false_ne_true
    simp only [holdRoomStep, hfind]
    exact ⟨_, rfl, rfl, rfl, rfl, rfl, rfl⟩

/-- Witness for C2 at a concrete input: a `BOOKED` `[1, 5)` claim on room 12
by `u0` makes the loop reject `u1`'s overlapping `[4, 8)` request. -/
theorem C2_room_interval_overlap_witness :
    holdRoomStep rooms12 "h" "t1" 4 8 "u1" "tok" 100 400
      (⟨[bookedAlloc12], 1⟩, [], []) "12" =
      (⟨[bookedAlloc12], 1⟩, [], [⟨"12", "Room already booked"⟩]) := by
  have h := (C2_room_interval_overlap.2.2.2 rooms12 "h" "t1" "12" "u1" "tok"
    4 8 100 400 bookedAlloc12 1 [] []
    (by decide) (by decide) (by decide) (Or.inl (by decide))).1 (by decide)
  simpa using h

/-- C4: amended claim.  Confirming a seat whose `HELD` reservation carries
the correct token and owner but a strictly-past `holdExpiresAt` fails and
does not transition the row to `BOOKED` — but the conflict reason is
`Hold token mismatch`, not `Hold expired`, because the in-transaction reap
first reclassifies the row to `EXPIRED` and nulls its token. -/
theorem C4_confirm_expired_hold (busId holdToken tripId uid : String)
    (bookingId paymentId : Option String) (jd now e : Nat) (sn : String)
    (rows : List SeatRes) (r : SeatRes)
    (hfind : seatFindUnique busId jd sn rows = some r)
    (hst : r.status = RStatus.HELD) (htok : r.holdToken = some holdToken)
    (huid : r.userId = uid) (hexp : r.holdExpiresAt = some e) (he : e < now) :
    (confirmSeats busId holdToken tripId bookingId paymentId [⟨jd, [sn]⟩] uid now
      rows).1 =
      ConfirmSeatsResult.err 409 "Some seats could not be confirmed" []
        [⟨sn, jd, "Hold token mismatch"⟩] ∧
    seatFindUnique busId jd sn
      (confirmSeats busId holdToken tripId bookingId paymentId [⟨jd, [sn]⟩] uid now
        rows).2 =
      some { r with
            status := RStatus.EXPIRED
            holdToken := none
            holdExpiresAt := none
            paymentId := none } := by
  have hkey : seatKeyMatch busId jd sn r = true := List.find?_some hfind
  have hreap : seatReapMatch busId jd now r = true := by
    have hb : (r.busId == busId) = true ∧ (r.journeyDate == jd) = true := by
      have := hkey
      unfold seatKeyMatch at this
      simp only [Bool.and_eq_true] at this
      exact ⟨this.1.1, this.1.2⟩
    unfold seatReapMatch
    simp [hb.1, hb.2, hst, expiryLt, hexp, he]
  have hfind' : seatFindUnique busId jd sn (expireStaleSeatHolds busId jd now rows) =
      some { r with
            status := RStatus.EXPIRED
            holdToken := none
            holdExpiresAt := none
            paymentId := none } := by
    rw [seatFindUnique_expire, hfind]
    simp [hreap]
  have hstep : confirmSeatStep busId holdToken uid bookingId paymentId jd now
      (expireStaleSeatHolds busId jd now rows, [], []) sn =
      (expireStaleSeatHolds busId jd now rows, [],
       [⟨sn, jd, "Hold token mismatch"⟩]) := by
    simp only [confirmSeatStep, hfind']
    rw [if_neg (by simp), if_pos (by simp)]
    rfl
  have hleg : confirmSeatLeg busId holdToken uid bookingId paymentId now
      (rows, [], []) ⟨jd, [sn]⟩ =
      (expireStaleSeatHolds busId jd now rows, [],
       [⟨sn, jd, "Hold token mismatch"⟩]) := by
    simp only [confirmSeatLeg, List.isEmpty_cons, Bool.false_eq_true, if_false,
      List.foldl_cons, List.foldl_nil]
    exact hstep
  constructor
  · simp only [confirmSeats, List.foldl_cons, List.foldl_nil, hleg]
    rfl
  · simp only [confirmSeats, List.foldl_cons, List.foldl_nil, hleg]
    rw [if_neg (by simp)]
    exact hfind'

/-- Witness for C4 at a concrete input: seat `S1` held by `u1` with token
`tok1`, expired at 5, confirmed at time 10. -/
theorem C4_confirm_expired_hold_witness :
    (confirmSeats "b" "tok1" "t1" none none [⟨1, ["S1"]⟩] "u1" 10 [expiredHeldS1]).1 =
      ConfirmSeatsResult.err 409 "Some seats could not be confirmed" []
        [⟨"S1", 1, "Hold token mismatch"⟩] ∧
    seatFindUnique "b" 1 "S1"
      (confirmSeats "b" "tok1" "t1" none none [⟨1, ["S1"]⟩] "u1" 10 [expiredHeldS1]).2 =
      some { expiredHeldS1 with
            status := RStatus.EXPIRED
            holdToken := none
            holdExpiresAt := none
            paymentId := none } :=
  C4_confirm_expired_hold "b" "tok1" "t1" "u1" none none 1 10 5 "S1"
    [expiredHeldS1] expiredHeldS1 (by decide) (by decide) (by decide) (by decide)
    (by decide) (by decide)

/-! ### Terminal rows and re-holds (C9), in-place update frame (C10) -/

/-- The write performed when `holdSeats` re-assigns an existing row. -/
def seatHoldWrite (tripId token uid : String) (expiresAt : Nat) (r0 : SeatRes) : SeatRes :=
  { r0 with
      tripId := tripId
      status := RStatus.HELD
      holdToken := some token
      holdExpiresAt := some expiresAt
      userId := uid
      paymentId := none
      bookingId := none }

/-- The write performed when `holdRooms` re-assigns an existing allocation:
note it does not touch `checkIn`/`checkOut`. -/
def roomHoldWrite (tripId token uid : String) (expiresAt : Nat) (a0 : RoomAlloc) : RoomAlloc :=
  { a0 with
      status := RStatus.HELD
      holdToken := some token
      holdExpiresAt := some expiresAt
      userId := uid
      tripId := tripId
      paymentId := none
      bookingId := none }

/-- The seat-hold write agrees with the inline record update in `holdSeatStep`. -/
theorem holdSeatStep_reassign (seats : List BusSeat) (busId tripId sn uid token : String)
    (jd now expiresAt : Nat) (st : List SeatRes × List String × List SeatRejection)
    (r : SeatRes) (hfind : seatFindUnique busId jd sn st.1 = some r)
    (hterm : r.status = RStatus.RELEASED ∨ r.status = RStatus.EXPIRED) :
    holdSeatStep seats busId tripId jd uid token now expiresAt st sn =
      (seatUpdateByKey busId jd sn (seatHoldWrite tripId token uid expiresAt) st.1,
       st.2.1 ++ [sn], st.2.2) := by
  rcases hterm with h | h <;>
    simp [holdSeatStep, hfind, h, seatHoldWrite, seatUpdateByKey]

/-- The hotel state after the in-place re-assignment of allocation `aid`. -/
def roomUpdState (st1 : HotelState) (aid : Nat) (tripId token uid : String)
    (expiresAt : Nat) : HotelState :=
  { st1 with
      allocs := allocUpdateById aid (roomHoldWrite tripId token uid expiresAt) st1.allocs }

/-- The room-hold write agrees with the inline record update in `holdRoomStep`
when the found allocation is terminal and owned by the requester. -/
theorem holdRoomStep_reassign_owner (rooms : List HotelRoom)
    (hotelId tripId rn uid token : String) (ci co now expiresAt : Nat)
    (st : HotelState × List String × List RoomRejection) (a : RoomAlloc)
    (hfind : roomFindFirstOverlap hotelId rn ci co st.1.allocs = some a)
    (hterm : a.status = RStatus.RELEASED ∨ a.status = RStatus.EXPIRED)
    (huid : a.userId = uid) :
    holdRoomStep rooms hotelId tripId ci co uid token now expiresAt st rn =
      (roomUpdState st.1 a.id tripId token uid expiresAt,
       st.2.1 ++ [rn], st.2.2) := by
  rcases hterm with h | h <;>
    simp [holdRoomStep, hfind, h, huid, roomHoldWrite, allocUpdateById, roomUpdState]

/-- A terminal allocation owned by a different user makes `holdRoomStep`
reject the room outright. -/
theorem holdRoomStep_reject_other (rooms : List HotelRoom)
    (hotelId tripId rn uid token : String) (ci co now expiresAt : Nat)
    (st : HotelState × List String × List RoomRejection) (a : RoomAlloc)
    (hfind : roomFindFirstOverlap hotelId rn ci co st.1.allocs = some a)
    (hterm : a.status = RStatus.RELEASED ∨ a.status = RStatus.EXPIRED)
    (huid : a.userId ≠ uid) :
    holdRoomStep rooms hotelId tripId ci co uid token now expiresAt st rn =
      (st.1, st.2.1,
       st.2.2 ++ [⟨rn, "Room currently held by another traveler"⟩]) := by
  rcases hterm with h | h <;>
    simp [holdRoomStep, hfind, h, huid]

/-- C9: corrected claim.  A unit whose occupying row is terminal
(`RELEASED`/`EXPIRED`) is re-granted by updating that row in place (never by
inserting a second row) — for seats this works for any authorized user, but
for rooms only when the requester is the user who owned the terminal row;
a different user is rejected with `Room currently held by another traveler`. -/
theorem C9_terminal_row_rehold :
    ((holdSeats seatsB "b" "t1" 1 ["S1"] none "tok" "u2" 100 [releasedSeatS1]).1 =
      HoldSeatsResult.ok "tok" 400 ["S1"] []) ∧
    (((holdSeats seatsB "b" "t1" 1 ["S1"] none "tok" "u2" 100 [releasedSeatS1]).2.map
        fun r => (r.status, r.holdToken, r.userId)) =
      [(RStatus.HELD, some "tok", "u2")]) ∧
    (∀ (seats : List BusSeat) (busId tripId sn uid token : String)
        (jd now expiresAt : Nat)
        (st : List SeatRes × List String × List SeatRejection) (r : SeatRes),
      seatFindUnique busId jd sn st.1 = some r →
      (r.status = RStatus.RELEASED ∨ r.status = RStatus.EXPIRED) →
      holdSeatStep seats busId tripId jd uid token now expiresAt st sn =
        (seatUpdateByKey busId jd sn (seatHoldWrite tripId token uid expiresAt) st.1,
         st.2.1 ++ [sn], st.2.2) ∧
      (holdSeatStep seats busId tripId jd uid token now expiresAt st sn).1.length =
        st.1.length) ∧
    ((holdRooms roomsH "h" "t1" 1 5 ["101"] 0 none "tok" "u1" 100 releasedRoomOfU1).1 =
      HoldRoomsResult.ok "tok" 1 5 400 ["101"] []) ∧
    (((holdRooms roomsH "h" "t1" 1 5 ["101"] 0 none "tok" "u1" 100
        releasedRoomOfU1).2.allocs.map fun a => (a.status, a.userId, a.holdToken)) =
      [(RStatus.HELD, "u1", some "tok")]) ∧
    (∀ (rooms : List HotelRoom) (hotelId tripId rn uid token : String)
        (ci co now expiresAt : Nat)
        (st : HotelState × List String × List RoomRejection) (a : RoomAlloc),
      roomFindFirstOverlap hotelId rn ci co st.1.allocs = some a →
      (a.status = RStatus.RELEASED ∨ a.status = RStatus.EXPIRED) →
      ((a.userId = uid →
        holdRoomStep rooms hotelId tripId ci co uid token now expiresAt st rn =
          (roomUpdState st.1 a.id tripId token uid expiresAt,
           st.2.1 ++ [rn], st.2.2) ∧
        (holdRoomStep rooms hotelId tripId ci co uid token now expiresAt
          st rn).1.allocs.length = st.1.allocs.length) ∧
       (a.userId ≠ uid →
        holdRoomStep rooms hotelId tripId ci co uid token now expiresAt st rn =
          (st.1, st.2.1,
           st.2.2 ++ [⟨rn, "Room currently held by another traveler"⟩])))) := by
  refine ⟨by decide, by decide, ?_, by decide, by decide, ?_⟩
  · intro seats busId tripId sn uid token jd now expiresAt st r hfind hterm
    refine ⟨holdSeatStep_reassign seats busId tripId sn uid token jd now expiresAt
      st r hfind hterm, ?_⟩
    rw [holdSeatStep_reassign seats busId tripId sn uid token jd now expiresAt
      st r hfind hterm]
    simp [seatUpdateByKey]
  · intro rooms hotelId tripId rn uid token ci co now expiresAt st a hfind hterm
    constructor
    · intro huid
      refine ⟨holdRoomStep_reassign_owner rooms hotelId tripId rn uid token ci co now
        expiresAt st a hfind hterm huid, ?_⟩
      rw [holdRoomStep_reassign_owner rooms hotelId tripId rn uid token ci co now
        expiresAt st a hfind hterm huid]
      simp [roomUpdState, allocUpdateById]
    · intro huid
      exact holdRoomStep_reject_other rooms hotelId tripId rn uid token ci co now
        expiresAt st a hfind hterm huid

/-- Witness for C9 at a concrete input: the step over `u0`'s released seat
row re-assigns it in place to `u2`. -/
theorem C9_terminal_row_rehold_witness :
    holdSeatStep seatsB "b" "t1" 1 "u2" "tok" 100 400 ([releasedSeatS1], [], []) "S1" =
      (seatUpdateByKey "b" 1 "S1" (seatHoldWrite "t1" "tok" "u2" 400) [releasedSeatS1],
       ["S1"], []) ∧
    (holdSeatStep seatsB "b" "t1" 1 "u2" "tok" 100 400
      ([releasedSeatS1], [], []) "S1").1.length = 1 := by
  have h := C9_terminal_row_rehold.2.2.1 seatsB "b" "t1" "S1" "u2" "tok" 1 100 400
    ([releasedSeatS1], [], []) releasedSeatS1 (by decide) (Or.inl (by decide))
  simpa using h

/-- C10: when `holdRooms` grants a room through the in-place update branch,
the stored `checkIn`/`checkOut` of every ledger row are left exactly as they
were (only status, token, expiry, user, trip, payment and booking fields are
written), while the success response reports the requested interval — shown
concretely by re-holding a `[1, 5)` row for the interval `[2, 6)`: the
response says `[2, 6)` but the row still stores `[1, 5)`. -/
theorem C10_inplace_update_keeps_interval :
    ((holdRooms roomsH "h" "t1" 2 6 ["101"] 0 none "tok" "u1" 100 releasedRoomOfU1).1 =
      HoldRoomsResult.ok "tok" 2 6 400 ["101"] []) ∧
    (((holdRooms roomsH "h" "t1" 2 6 ["101"] 0 none "tok" "u1" 100
        releasedRoomOfU1).2.allocs.map fun a => (a.checkIn, a.checkOut, a.status)) =
      [(1, 5, RStatus.HELD)]) ∧
    (∀ (rooms : List HotelRoom) (hotelId tripId rn uid token : String)
        (ci co now expiresAt : Nat)
        (st : HotelState × List String × List RoomRejection) (a : RoomAlloc),
      roomFindFirstOverlap hotelId rn ci co st.1.allocs = some a →
      a.status ≠ RStatus.BOOKED →
      (a.status == RStatus.HELD && expiryLe a.holdExpiresAt now ||
        a.userId == uid && a.holdToken == some token || a.userId == uid) = true →
      holdRoomStep rooms hotelId tripId ci co uid token now expiresAt st rn =
        (roomUpdState st.1 a.id tripId token uid expiresAt,
         st.2.1 ++ [rn], st.2.2) ∧
      List.Forall₂ (fun old new => new.checkIn = old.checkIn ∧ new.checkOut = old.checkOut)
        st.1.allocs
        (holdRoomStep rooms hotelId tripId ci co uid token now expiresAt st rn).1.allocs) := by
  refine ⟨by decide, by decide, ?_⟩
  intro rooms hotelId tripId rn uid token ci co now expiresAt st a hfind hnb hcond
  have hstep : holdRoomStep rooms hotelId tripId ci co uid token now expiresAt st rn =
      (roomUpdState st.1 a.id tripId token uid expiresAt,
       st.2.1 ++ [rn], st.2.2) := by
    simp [holdRoomStep, hfind, hnb, hcond, roomHoldWrite, allocUpdateById, roomUpdState]
  refine ⟨hstep, ?_⟩
  rw [hstep]
  show List.Forall₂ _ st.1.allocs
    (allocUpdateById a.id (roomHoldWrite tripId token uid expiresAt) st.1.allocs)
  unfold allocUpdateById
  induction st.1.allocs with
  | nil => exact List.Forall₂.nil
  | cons x xs ih =>
      refine List.Forall₂.cons ?_ ih
      by_cases hx : (x.id == a.id) = true
      · simp [hx, roomHoldWrite]
      · simp [eq_false_of_ne_true hx]

/-- Witness for C10 at a concrete input: re-holding `u1`'s released `[1, 5)`
allocation of room 101 for `[2, 6)` updates it in place and keeps `[1, 5)`. -/
theorem C10_inplace_update_keeps_interval_witness :
    holdRoomStep roomsH "h" "t1" 2 6 "u1" "tok" 100 400
      (releasedRoomOfU1, [], []) "101" =
      (roomUpdState releasedRoomOfU1 0 "t1" "tok" "u1" 400, ["101"], []) ∧
    List.Forall₂ (fun old new => new.checkIn = old.checkIn ∧ new.checkOut = old.checkOut)
      releasedRoomOfU1.allocs
      (holdRoomStep roomsH "h" "t1" 2 6 "u1" "tok" 100 400
        (releasedRoomOfU1, [], []) "101").1.allocs := by
  have h := C10_inplace_update_keeps_interval.2.2 roomsH "h" "t1" "101" "u1" "tok"
    2 6 100 400 (releasedRoomOfU1, [], []) (releasedAlloc "u1") (by decide) (by decide)
    (by decide)
  simpa using h

/-! ### The no-double-grant invariant (C1) -/

/-- The whole reservation ledger: bus seat reservations plus hotel room
allocations. -/
structure EngineState where
  seatRes : List SeatRes
  hotel : HotelState

/-- No two seat-reservation rows share the composite key
`(busId, journeyDate, seatNumber)` — the uniqueness constraint the schema
enforces and the handlers maintain by updating in place. -/
def seatKeysUnique (rows : List SeatRes) : Prop :=
  rows.Pairwise fun a b =>
    ¬(a.busId = b.busId ∧ a.journeyDate = b.journeyDate ∧ a.seatNumber = b.seatNumber)

/-- No two allocation rows of the same hotel room have overlapping
`[checkIn, checkOut)` intervals — maintained because rows are only created
when no overlapping row of any status exists, and updates never touch the
interval. -/
def roomIntervalsSeparated (allocs : List RoomAlloc) : Prop :=
  allocs.Pairwise fun a b => a.hotelId = b.hotelId → a.roomNumber = b.roomNumber →
    ¬(a.checkIn < b.checkOut ∧ b.checkIn < a.checkOut)

/-- One ledger-mutating operation of the engine: hold, confirm, release or
reap, on either manager, with arbitrary arguments. -/
inductive Step : EngineState → EngineState → Prop
  | holdSeatsOp (seats : List BusSeat) (busId tripId : String) (jd : Nat)
      (sns : List String) (reqToken : Option String) (freshToken uid : String)
      (now : Nat) (s : EngineState) :
      Step s ⟨(holdSeats seats busId tripId jd sns reqToken freshToken uid now
        s.seatRes).2, s.hotel⟩
  | confirmSeatsOp (busId holdToken tripId : String)
      (bookingId paymentId : Option String) (legs : List ConfirmLeg) (uid : String)
      (now : Nat) (s : EngineState) :
      Step s ⟨(confirmSeats busId holdToken tripId bookingId paymentId legs uid now
        s.seatRes).2, s.hotel⟩
  | releaseSeatsOp (a : ReleaseSeatsArgs) (s : EngineState) :
      Step s ⟨(releaseSeats a s.seatRes).1, s.hotel⟩
  | reapSeatsOp (busId : String) (jd now : Nat) (s : EngineState) :
      Step s ⟨expireStaleSeatHolds busId jd now s.seatRes, s.hotel⟩
  | holdRoomsOp (rooms : List HotelRoom) (hotelId tripId : String) (ci co : Nat)
      (rns : List String) (needed : Nat) (reqToken : Option String)
      (freshToken uid : String) (now : Nat) (s : EngineState) :
      Step s ⟨s.seatRes, (holdRooms rooms hotelId tripId ci co rns needed reqToken
        freshToken uid now s.hotel).2⟩
  | confirmRoomsOp (hotelId token tripId : String) (bookingId paymentId : Option String)
      (dates : Option (Nat × Nat)) (rns : Option (List String)) (uid : String)
      (now : Nat) (s : EngineState) :
      Step s ⟨s.seatRes, (confirmRooms hotelId token tripId bookingId paymentId dates
        rns uid now s.hotel).2⟩
  | releaseRoomsOp (a : ReleaseRoomsArgs) (s : EngineState) :
      Step s ⟨s.seatRes, (releaseRooms a s.hotel).1⟩
  | reapRoomsOp (hotelId : String) (ci co now : Nat) (s : EngineState) :
      Step s ⟨s.seatRes, { s.hotel with
        allocs := expireStaleRoomHolds hotelId ci co now s.hotel.allocs }⟩

/-- States reachable from the empty ledger by hold/confirm/release/reap. -/
inductive Reachable : EngineState → Prop
  | init : Reachable ⟨[], ⟨[], 0⟩⟩
  | step {s s' : EngineState} : Reachable s → Step s s' → Reachable s'

/-- A row-wise transformation that does not touch the seat key preserves key
uniqueness. -/
theorem seatKeysUnique_map (rows : List SeatRes) (f : SeatRes → SeatRes)
    (hf : ∀ x, (f x).busId = x.busId ∧ (f x).journeyDate = x.journeyDate ∧
      (f x).seatNumber = x.seatNumber)
    (h : seatKeysUnique rows) : seatKeysUnique (rows.map f) := by
  refine h.map f ?_
  intro a b hab hcon
  exact hab ⟨(hf a).1 ▸ (hf b).1 ▸ hcon.1,
    (hf a).2.1 ▸ (hf b).2.1 ▸ hcon.2.1,
    (hf a).2.2 ▸ (hf b).2.2 ▸ hcon.2.2⟩

/-- A row-wise transformation that does not touch hotel, room or interval
preserves interval separation. -/
theorem roomIntervalsSeparated_map (allocs : List RoomAlloc) (f : RoomAlloc → RoomAlloc)
    (hf : ∀ x, (f x).hotelId = x.hotelId ∧ (f x).roomNumber = x.roomNumber ∧
      (f x).checkIn = x.checkIn ∧ (f x).checkOut = x.checkOut)
    (h : roomIntervalsSeparated allocs) : roomIntervalsSeparated (allocs.map f) := by
  refine h.map f ?_
  intro a b hab h1 h2 hcon
  refine hab ((hf a).1 ▸ (hf b).1 ▸ h1) ((hf a).2.1 ▸ (hf b).2.1 ▸ h2) ?_
  exact ⟨(hf a).2.2.1 ▸ (hf b).2.2.2 ▸ hcon.1,
    (hf b).2.2.1 ▸ (hf a).2.2.2 ▸ hcon.2⟩

/-- The seat reap preserves key uniqueness. -/
theorem expireStaleSeatHolds_keysUnique (busId : String) (jd now : Nat)
    (rows : List SeatRes) (h : seatKeysUnique rows) :
    seatKeysUnique (expireStaleSeatHolds busId jd now rows) := by
  refine seatKeysUnique_map rows _ ?_ h
  intro x
  by_cases hx : seatReapMatch busId jd now x = true
  · rw [if_pos hx]
    exact ⟨rfl, rfl, rfl⟩
  · rw [if_neg hx]
    exact ⟨rfl, rfl, rfl⟩

/-- A by-key update preserves key uniqueness whenever the write keeps keys. -/
theorem seatUpdateByKey_keysUnique (b : String) (j : Nat) (s : String)
    (f : SeatRes → SeatRes)
    (hf : ∀ x, (f x).busId = x.busId ∧ (f x).journeyDate = x.journeyDate ∧
      (f x).seatNumber = x.seatNumber)
    (rows : List SeatRes) (h : seatKeysUnique rows) :
    seatKeysUnique (seatUpdateByKey b j s f rows) := by
  refine seatKeysUnique_map rows _ ?_ h
  intro x
  by_cases hx : seatKeyMatch b j s x = true
  · rw [if_pos hx]
    exact hf x
  · rw [if_neg hx]
    exact ⟨rfl, rfl, rfl⟩

/-- The `holdSeats` loop body preserves key uniqueness: it creates a row only
when `findUnique` found none for the key, and otherwise updates in place. -/
theorem holdSeatStep_keysUnique (seats : List BusSeat) (busId tripId : String)
    (jd : Nat) (uid token : String) (now expiresAt : Nat)
    (st : List SeatRes × List String × List SeatRejection) (sn : String)
    (h : seatKeysUnique st.1) :
    seatKeysUnique (holdSeatStep seats busId tripId jd uid token now expiresAt st sn).1 := by
  have hwrite : ∀ x : SeatRes, (seatHoldWrite tripId token uid expiresAt x).busId = x.busId ∧
      (seatHoldWrite tripId token uid expiresAt x).journeyDate = x.journeyDate ∧
      (seatHoldWrite tripId token uid expiresAt x).seatNumber = x.seatNumber := by
    intro x
    exact ⟨rfl, rfl, rfl⟩
  simp only [holdSeatStep]
  split
  · rename_i hfind
    unfold seatKeysUnique
    rw [List.pairwise_append]
    refine ⟨h, List.pairwise_singleton .., ?_⟩
    intro x hx y hy
    rw [List.mem_singleton.mp hy]
    have hnone := List.find?_eq_none.mp hfind x hx
    intro hcon
    apply hnone
    unfold seatKeyMatch
    simp only [Bool.and_eq_true, beq_iff_eq]
    exact ⟨⟨hcon.1, hcon.2.1⟩, hcon.2.2⟩
  · split
    · exact h
    · split
      · split
        · refine seatUpdateByKey_keysUnique busId jd sn _ ?_ st.1 h
          intro x
          exact ⟨rfl, rfl, rfl⟩
        · exact h
      · refine seatUpdateByKey_keysUnique busId jd sn _ ?_ st.1 h
        intro x
        exact ⟨rfl, rfl, rfl⟩

/-- `holdSeats` preserves key uniqueness. -/
theorem holdSeats_keysUnique (seats : List BusSeat) (busId tripId : String)
    (jd : Nat) (sns : List String) (reqToken : Option String)
    (freshToken uid : String) (now : Nat) (rows : List SeatRes)
    (h : seatKeysUnique rows) :
    seatKeysUnique (holdSeats seats busId tripId jd sns reqToken freshToken uid
      now rows).2 := by
  have hloop : ∀ (token : String) (seatsArg : List BusSeat) (l : List String)
      (st : List SeatRes × List String × List SeatRejection),
      seatKeysUnique st.1 →
      seatKeysUnique (l.foldl (holdSeatStep seatsArg busId tripId jd uid token now
        (now + HOLD_DURATION_SECONDS)) st).1 := by
    intro token seatsArg l
    induction l with
    | nil => intro st hst; exact hst
    | cons x xs ih =>
        intro st hst
        rw [List.foldl_cons]
        exact ih _ (holdSeatStep_keysUnique seatsArg busId tripId jd uid token now
          (now + HOLD_DURATION_SECONDS) st x hst)
  simp only [holdSeats]
  repeat' split
  all_goals
    first
      | exact h
      | exact hloop _ _ _ (expireStaleSeatHolds busId jd now rows, [], [])
          (expireStaleSeatHolds_keysUnique busId jd now rows h)

/-- The `confirmSeats` per-seat body preserves key uniqueness. -/
theorem confirmSeatStep_keysUnique (busId holdToken uid : String)
    (bookingId paymentId : Option String) (jd now : Nat)
    (st : List SeatRes × List ConfirmedSeat × List SeatConflict) (sn : String)
    (h : seatKeysUnique st.1) :
    seatKeysUnique (confirmSeatStep busId holdToken uid bookingId paymentId jd now
      st sn).1 := by
  simp only [confirmSeatStep]
  split
  · exact h
  · split
    · exact h
    · split
      · exact h
      · split
        · exact h
        · refine seatUpdateByKey_keysUnique busId jd sn _ ?_ st.1 h
          intro x
          exact ⟨rfl, rfl, rfl⟩

/-- `confirmSeats` preserves key uniqueness. -/
theorem confirmSeats_keysUnique (busId holdToken tripId : String)
    (bookingId paymentId : Option String) (legs : List ConfirmLeg) (uid : String)
    (now : Nat) (rows : List SeatRes) (h : seatKeysUnique rows) :
    seatKeysUnique (confirmSeats busId holdToken tripId bookingId paymentId legs uid
      now rows).2 := by
  have hstep : ∀ (jd : Nat) (l : List String)
      (st : List SeatRes × List ConfirmedSeat × List SeatConflict),
      seatKeysUnique st.1 →
      seatKeysUnique (l.foldl (confirmSeatStep busId holdToken uid bookingId
        paymentId jd now) st).1 := by
    intro jd l
    induction l with
    | nil => intro st hst; exact hst
    | cons x xs ih =>
        intro st hst
        rw [List.foldl_cons]
        exact ih _ (confirmSeatStep_keysUnique busId holdToken uid bookingId paymentId
          jd now st x hst)
  have hleg : ∀ (st : List SeatRes × List ConfirmedSeat × List SeatConflict)
      (leg : ConfirmLeg), seatKeysUnique st.1 →
      seatKeysUnique (confirmSeatLeg busId holdToken uid bookingId paymentId now
        st leg).1 := by
    intro st leg hst
    simp only [confirmSeatLeg]
    split
    · exact hst
    · exact hstep leg.journeyDate leg.seatNumbers _
        (expireStaleSeatHolds_keysUnique busId leg.journeyDate now st.1 hst)
  have hfold : ∀ (ls : List ConfirmLeg)
      (st : List SeatRes × List ConfirmedSeat × List SeatConflict),
      seatKeysUnique st.1 →
      seatKeysUnique (ls.foldl (confirmSeatLeg busId holdToken uid bookingId
        paymentId now) st).1 := by
    intro ls
    induction ls with
    | nil => intro st hst; exact hst
    | cons x xs ih =>
        intro st hst
        rw [List.foldl_cons]
        exact ih _ (hleg st x hst)
  simp only [confirmSeats]
  split
  · exact hfold legs (rows, [], []) h
  · exact hfold legs (rows, [], []) h

/-- `releaseSeats` preserves key uniqueness. -/
theorem releaseSeats_keysUnique (a : ReleaseSeatsArgs) (rows : List SeatRes)
    (h : seatKeysUnique rows) : seatKeysUnique (releaseSeats a rows).1 := by
  refine seatKeysUnique_map rows _ ?_ h
  intro x
  by_cases hx : releaseSeatMatch a x = true
  · rw [if_pos hx]
    exact ⟨rfl, rfl, rfl⟩
  · rw [if_neg hx]
    exact ⟨rfl, rfl, rfl⟩

/-- The room reap preserves interval separation. -/
theorem expireStaleRoomHolds_separated (hotelId : String) (ci co now : Nat)
    (allocs : List RoomAlloc) (h : roomIntervalsSeparated allocs) :
    roomIntervalsSeparated (expireStaleRoomHolds hotelId ci co now allocs) := by
  refine roomIntervalsSeparated_map allocs _ ?_ h
  intro x
  by_cases hx : roomReapMatch hotelId ci co now x = true
  · rw [if_pos hx]
    exact ⟨rfl, rfl, rfl, rfl⟩
  · rw [if_neg hx]
    exact ⟨rfl, rfl, rfl, rfl⟩

/-- A by-id update preserves interval separation whenever the write keeps
hotel, room and interval. -/
theorem allocUpdateById_separated (aid : Nat) (f : RoomAlloc → RoomAlloc)
    (hf : ∀ x, (f x).hotelId = x.hotelId ∧ (f x).roomNumber = x.roomNumber ∧
      (f x).checkIn = x.checkIn ∧ (f x).checkOut = x.checkOut)
    (allocs : List RoomAlloc) (h : roomIntervalsSeparated allocs) :
    roomIntervalsSeparated (allocUpdateById aid f allocs) := by
  refine roomIntervalsSeparated_map allocs _ ?_ h
  intro x
  by_cases hx : (x.id == aid) = true
  · rw [if_pos hx]
    exact hf x
  · rw [if_neg hx]
    exact ⟨rfl, rfl, rfl, rfl⟩

/-- The `holdRooms` loop body preserves interval separation: it creates a row
only when `findFirst` found no allocation of any status overlapping the
requested interval, and otherwise updates in place without touching the
stored interval. -/
theorem holdRoomStep_separated (rooms : List HotelRoom) (hotelId tripId : String)
    (ci co : Nat) (uid token : String) (now expiresAt : Nat)
    (st : HotelState × List String × List RoomRejection) (rn : String)
    (h : roomIntervalsSeparated st.1.allocs) :
    roomIntervalsSeparated
      (holdRoomStep rooms hotelId tripId ci co uid token now expiresAt st rn).1.allocs := by
  simp only [holdRoomStep]
  split
  · rename_i hfind
    unfold roomIntervalsSeparated
    rw [List.pairwise_append]
    refine ⟨h, List.pairwise_singleton .., ?_⟩
    intro x hx y hy
    rw [List.mem_singleton.mp hy]
    have hnone := List.find?_eq_none.mp hfind x hx
    intro h1 h2 hcon
    apply hnone
    simp only [Bool.and_eq_true, beq_iff_eq, allocOverlaps, decide_eq_true_eq]
    exact ⟨⟨h1, h2⟩, hcon.1, hcon.2⟩
  · split
    · exact h
    · split
      · refine allocUpdateById_separated _ _ ?_ st.1.allocs h
        intro x
        exact ⟨rfl, rfl, rfl, rfl⟩
      · exact h

/-- `holdRooms` preserves interval separation. -/
theorem holdRooms_separated (rooms : List HotelRoom) (hotelId tripId : String)
    (ci co : Nat) (rns : List String) (needed : Nat) (reqToken : Option String)
    (freshToken uid : String) (now : Nat) (s : HotelState)
    (h : roomIntervalsSeparated s.allocs) :
    roomIntervalsSeparated (holdRooms rooms hotelId tripId ci co rns needed reqToken
      freshToken uid now s).2.allocs := by
  have hloop : ∀ (token : String) (roomsArg : List HotelRoom) (l : List String)
      (st : HotelState × List String × List RoomRejection),
      roomIntervalsSeparated st.1.allocs →
      roomIntervalsSeparated (l.foldl (holdRoomStep roomsArg hotelId tripId ci co uid
        token now (now + ROOM_HOLD_DURATION_SECONDS)) st).1.allocs := by
    intro token roomsArg l
    induction l with
    | nil => intro st hst; exact hst
    | cons x xs ih =>
        intro st hst
        rw [List.foldl_cons]
        exact ih _ (holdRoomStep_separated roomsArg hotelId tripId ci co uid token now
          (now + ROOM_HOLD_DURATION_SECONDS) st x hst)
  simp only [holdRooms]
  repeat' split
  all_goals
    first
      | exact h
      | exact hloop _ _ _
          ({ s with allocs := expireStaleRoomHolds hotelId ci co now s.allocs }, [], [])
          (expireStaleRoomHolds_separated hotelId ci co now s.allocs h)

/-- `confirmRooms` preserves interval separation. -/
theorem confirmRooms_separated (hotelId token tripId : String)
    (bookingId paymentId : Option String) (dates : Option (Nat × Nat))
    (rns : Option (List String)) (uid : String) (now : Nat) (s : HotelState)
    (h : roomIntervalsSeparated s.allocs) :
    roomIntervalsSeparated (confirmRooms hotelId token tripId bookingId paymentId
      dates rns uid now s).2.allocs := by
  have hstep : ∀ (l : List RoomAlloc)
      (st : List RoomAlloc × List ConfirmedRoom × List RoomRejection),
      roomIntervalsSeparated st.1 →
      roomIntervalsSeparated (l.foldl (confirmRoomStep bookingId paymentId now) st).1 := by
    intro l
    induction l with
    | nil => intro st hst; exact hst
    | cons x xs ih =>
        intro st hst
        rw [List.foldl_cons]
        apply ih
        simp only [confirmRoomStep]
        split
        · exact hst
        · refine allocUpdateById_separated _ _ ?_ st.1 hst
          intro y
          exact ⟨rfl, rfl, rfl, rfl⟩
  simp only [confirmRooms]
  repeat' split
  all_goals
    first
      | exact h
      | exact hstep _ (s.allocs, [], []) h

/-- `releaseRooms` preserves interval separation. -/
theorem releaseRooms_separated (a : ReleaseRoomsArgs) (s : HotelState)
    (h : roomIntervalsSeparated s.allocs) :
    roomIntervalsSeparated (releaseRooms a s).1.allocs := by
  refine roomIntervalsSeparated_map s.allocs _ ?_ h
  intro x
  by_cases hx : releaseRoomMatch a x = true
  · rw [if_pos hx]
    exact ⟨rfl, rfl, rfl, rfl⟩
  · rw [if_neg hx]
    exact ⟨rfl, rfl, rfl, rfl⟩

/-- Both invariants hold in every reachable state. -/
theorem reachable_invariant (s : EngineState) (h : Reachable s) :
    seatKeysUnique s.seatRes ∧ roomIntervalsSeparated s.hotel.allocs := by
  induction h with
  | init => exact ⟨List.Pairwise.nil, List.Pairwise.nil⟩
  | step hr hstep ih =>
      clear hr
      revert ih
      cases hstep with
      | holdSeatsOp seats busId tripId jd sns reqToken freshToken uid now s =>
          intro ih
          exact ⟨holdSeats_keysUnique seats busId tripId jd sns reqToken freshToken uid
            now _ ih.1, ih.2⟩
      | confirmSeatsOp busId holdToken tripId bookingId paymentId legs uid now s =>
          intro ih
          exact ⟨confirmSeats_keysUnique busId holdToken tripId bookingId paymentId
            legs uid now _ ih.1, ih.2⟩
      | releaseSeatsOp a s =>
          intro ih
          exact ⟨releaseSeats_keysUnique a _ ih.1, ih.2⟩
      | reapSeatsOp busId jd now s =>
          intro ih
          exact ⟨expireStaleSeatHolds_keysUnique busId jd now _ ih.1, ih.2⟩
      | holdRoomsOp rooms hotelId tripId ci co rns needed reqToken freshToken uid now s =>
          intro ih
          exact ⟨ih.1, holdRooms_separated rooms hotelId tripId ci co rns needed
            reqToken freshToken uid now _ ih.2⟩
      | confirmRoomsOp hotelId token tripId bookingId paymentId dates rns uid now s =>
          intro ih
          exact ⟨ih.1, confirmRooms_separated hotelId token tripId bookingId paymentId
            dates rns uid now _ ih.2⟩
      | releaseRoomsOp a s =>
          intro ih
          exact ⟨ih.1, releaseRooms_separated a _ ih.2⟩
      | reapRoomsOp hotelId ci co now s =>
          intro ih
          exact ⟨ih.1, expireStaleRoomHolds_separated hotelId ci co now _ ih.2⟩

/-- C1: in every ledger state reachable by any sequence of hold, confirm,
release and reap operations, no two distinct seat-reservation rows for the
same `(busId, journeyDate, seatNumber)` are both `HELD`/`BOOKED` (at most
one active claim per seat key), and no two distinct allocations of the same
hotel room with overlapping `[checkIn, checkOut)` intervals are both
`HELD`/`BOOKED`. -/
theorem C1_no_double_grant (s : EngineState) (h : Reachable s) :
    (s.seatRes.Pairwise fun a b => a.busId = b.busId → a.journeyDate = b.journeyDate →
      a.seatNumber = b.seatNumber →
      ¬((a.status = RStatus.HELD ∨ a.status = RStatus.BOOKED) ∧
        (b.status = RStatus.HELD ∨ b.status = RStatus.BOOKED))) ∧
    (s.hotel.allocs.Pairwise fun a b => a.hotelId = b.hotelId →
      a.roomNumber = b.roomNumber → a.checkIn < b.checkOut → b.checkIn < a.checkOut →
      ¬((a.status = RStatus.HELD ∨ a.status = RStatus.BOOKED) ∧
        (b.status = RStatus.HELD ∨ b.status = RStatus.BOOKED))) := by
  obtain ⟨h1, h2⟩ := reachable_invariant s h
  constructor
  · refine h1.imp ?_
    intro a b hab hb hj hs _
    exact hab ⟨hb, hj, hs⟩
  · refine h2.imp ?_
    intro a b hab hh hr hc1 hc2 _
    exact hab hh hr ⟨hc1, hc2⟩

/-- Witness for C1 at a concrete reachable state: hold a seat, then hold a
room, starting from the empty ledger. -/
theorem C1_no_double_grant_witness :
    ((holdSeats seatsB "b" "t1" 1 ["S1"] none "tok" "u1" 100 []).2.Pairwise
      fun a b => a.busId = b.busId → a.journeyDate = b.journeyDate →
        a.seatNumber = b.seatNumber →
        ¬((a.status = RStatus.HELD ∨ a.status = RStatus.BOOKED) ∧
          (b.status = RStatus.HELD ∨ b.status = RStatus.BOOKED))) ∧
    ((holdRooms roomsH "h" "t1" 1 5 ["101"] 0 none "tokr" "u1" 100
        ⟨[], 0⟩).2.allocs.Pairwise
      fun a b => a.hotelId = b.hotelId → a.roomNumber = b.roomNumber →
        a.checkIn < b.checkOut → b.checkIn < a.checkOut →
        ¬((a.status = RStatus.HELD ∨ a.status = RStatus.BOOKED) ∧
          (b.status = RStatus.HELD ∨ b.status = RStatus.BOOKED))) :=
  C1_no_double_grant
    ⟨(holdSeats seatsB "b" "t1" 1 ["S1"] none "tok" "u1" 100 []).2,
     (holdRooms roomsH "h" "t1" 1 5 ["101"] 0 none "tokr" "u1" 100 ⟨[], 0⟩).2⟩
    (Reachable.step
      (Reachable.step Reachable.init
        (Step.holdSeatsOp seatsB "b" "t1" 1 ["S1"] none "tok" "u1" 100 ⟨[], ⟨[], 0⟩⟩))
      (Step.holdRoomsOp roomsH "h" "t1" 1 5 ["101"] 0 none "tokr" "u1" 100
        ⟨(holdSeats seatsB "b" "t1" 1 ["S1"] none "tok" "u1" 100 []).2, ⟨[], 0⟩⟩))

end PMJ
